import Mathlib

/-! Pod option generation (`pkg/specgen/generate/pod_create.go`); the image
listing of `server/image_list.go` follows in namespace `Crio`.

A shallow embedding of `createPodOptions`, the function that turns a
`PodSpecGenerator` into the ordered list of `libpod.PodCreateOption`s handed to
the pod constructor.

Go values are rendered as follows.

* `error` is `GoError`: either a fresh error (`errors.Errorf`) or an error
  wrapped around a cause (`errors.Wrapf`).
* A function returning `(T, error)` returns `Except GoError T`.
* `libpod.PodCreateOption` is a closure in Go; here it is the tagged value
  `PodCreateOption`, one constructor per `libpod.With...` function called by
  `createPodOptions`, plus `Other` for every option built elsewhere.
* The functions and globals that `createPodOptions` calls but that live outside
  the translated file (`GetNamespaceOptions`, `CreateExitCommandArgs`,
  `ParsePortMapping`, `rootless.IsRootless`, `logrus.IsLevelEnabled`,
  `net.IP.String`, `Namespace.IsDefault`) are the fields of `Env`.
-/

namespace Podman

/-! ## Data model -/

/-- Go `error` values as built by `github.com/pkg/errors`. -/
inductive GoError where
  | Errorf (msg : String)
  | Wrapf (cause : GoError) (msg : String)
  deriving DecidableEq, Repr

/-- `specgen.NamespaceMode` is a Go string type. -/
abbrev NamespaceMode := String

/-- `specgen.Namespace`: a mode and an optional value. -/
structure Namespace where
  NSMode : NamespaceMode
  Value : String
  deriving DecidableEq, Repr

/-- `net.IP`, a byte slice. -/
abbrev IP := List Nat

/-- `net.HardwareAddr`, a byte slice. -/
abbrev HardwareAddr := List Nat

/-- `specgen.PortMapping`. The type is declared outside the translated file and
is only handed to `ParsePortMapping`; it is carried as the raw mapping text. -/
abbrev PortMapping := String

/-- `ocicni.PortMapping`, the parsed form produced by `ParsePortMapping`. The
type is declared outside the translated file and is only carried through. -/
structure OCICNIPortMapping where
  HostPort : Nat
  ContainerPort : Nat
  Protocol : String
  HostIP : String
  deriving DecidableEq, Repr

/-- `storage.StoreOptions`, only handed to `CreateExitCommandArgs`. -/
structure StoreOptions where
  GraphRoot : String
  RunRoot : String
  deriving DecidableEq, Repr

/-- `config.Config`, only handed to `CreateExitCommandArgs`. -/
structure Config where
  OCIRuntime : String
  deriving DecidableEq, Repr

/-! The mode constants are declared in package `specgen`, outside the
translated file. They are given that package's values; the results below use
only that they are pairwise distinct and different from the empty string,
which the `switch` over them requires. -/

namespace specgen

/-- `specgen.Default`. -/
def Default : NamespaceMode := "default"
/-- `specgen.Bridge`. -/
def Bridge : NamespaceMode := "bridge"
/-- `specgen.Host`. -/
def Host : NamespaceMode := "host"
/-- `specgen.Slirp`. -/
def Slirp : NamespaceMode := "slirp4netns"
/-- `specgen.NoNetwork`. -/
def NoNetwork : NamespaceMode := "none"

end specgen

/-- The fields of `specgen.PodSpecGenerator` read by `createPodOptions`.
Go maps are association lists, pointers are `Option`s, and the slice
`PodCreateCommand`, which the code tests against `nil`, is an `Option` too. -/
structure PodSpecGenerator where
  Name : String
  Hostname : String
  Labels : List (String × String)
  NoInfra : Bool
  InfraConmonPidFile : String
  InfraCommand : List String
  InfraImage : String
  InfraName : String
  SharedNamespaces : List String
  PodCreateCommand : Option (List String)
  Pid : Namespace
  NetNS : Namespace
  StaticIP : Option IP
  StaticMAC : Option HardwareAddr
  PortMappings : List PortMapping
  CNINetworks : List String
  NoManageResolvConf : Bool
  DNSServer : List IP
  DNSSearch : List String
  DNSOption : List String
  NoManageHosts : Bool
  HostAdd : List String
  NetworkOptions : List (String × List String)
  CgroupParent : String
  deriving DecidableEq, Repr

/-- `libpod.PodCreateOption`. One constructor for each `libpod.With...` call in
`createPodOptions`; `Other` stands for any option built by other code. -/
inductive PodCreateOption where
  | WithInfraContainer
  | WithPodInfraExitCommand (exitCmd : List String)
  | WithPodCgroupParent (path : String)
  | WithPodLabels (labels : List (String × String))
  | WithPodName (name : String)
  | WithPodHostname (hostname : String)
  | WithPodHosts (hosts : List String)
  | WithPodDNS (dnsServer : List String)
  | WithPodDNSOption (dnsOption : List String)
  | WithPodDNSSearch (dnsSearch : List String)
  | WithPodStaticIP (ip : IP)
  | WithPodStaticMAC (mac : HardwareAddr)
  | WithPodUseImageResolvConf
  | WithPodNetworks (networks : List String)
  | WithInfraImage (img : String)
  | WithInfraName (name : String)
  | WithInfraCommand (cmd : List String)
  | WithPodPidNS (pid : Namespace)
  | WithPodSlirp4netns (networkOptions : List (String × List String))
  | WithPodHostNetwork
  | WithPodNoNetwork
  | WithPodUseImageHosts
  | WithInfraContainerPorts (bindings : List OCICNIPortMapping)
  | WithPodCgroups
  | WithPodCreateCommand (createCmd : List String)
  | WithInfraConmonPidFile (path : String)
  | Other (name : String)
  deriving DecidableEq, Repr

/-- The part of `libpod.Runtime` read by `createPodOptions`. -/
structure Runtime where
  StorageConfig : StoreOptions
  GetConfig : Except GoError Config

/-- The functions and process-wide values `createPodOptions` calls that are
defined outside the translated file. `ParsePortMapping` returns four values in
Go; the two that the caller discards are left out. `IsDebugLevelEnabled` is
`logrus.IsLevelEnabled(logrus.DebugLevel)`, `IPString` is `net.IP.String` and
`IsDefault` is `Namespace.IsDefault`. -/
structure Env where
  GetNamespaceOptions : List String → Except GoError (List PodCreateOption)
  CreateExitCommandArgs :
    StoreOptions → Config → Bool → Bool → Bool → Except GoError (List String)
  ParsePortMapping : List PortMapping → Except GoError (List OCICNIPortMapping)
  IsRootless : Bool
  IsDebugLevelEnabled : Bool
  IPString : IP → String
  IsDefault : Namespace → Bool

/-! ## The translated function -/

/-- `errors.Wrapf(err, msg)` applied on the failure branch of a call. -/
def wrapErr {α : Type} (r : Except GoError α) (msg : String) : Except GoError α :=
  match r with
  | .ok v => .ok v
  | .error err => .error (GoError.Wrapf err msg)

/-- `if cond { options = append(options, o) }`. -/
def appendIf (options : List PodCreateOption) (cond : Bool) (o : PodCreateOption) :
    List PodCreateOption :=
  if cond then options ++ [o] else options

/-- `if field != nil { options = append(options, mk(*field)) }`. -/
def appendSome {α : Type} (options : List PodCreateOption) (field : Option α)
    (mk : α → PodCreateOption) : List PodCreateOption :=
  match field with
  | some a => options ++ [mk a]
  | none => options

/-- The body of `if !p.NoInfra { ... }` (lines 28-47). -/
def infraOptions (env : Env) (p : PodSpecGenerator) (rt : Runtime)
    (options : List PodCreateOption) : Except GoError (List PodCreateOption) :=
  if !p.NoInfra then do
    let options := options ++ [PodCreateOption.WithInfraContainer]
    let nsOptions ← env.GetNamespaceOptions p.SharedNamespaces
    let options := options ++ nsOptions
    let storageConfig := rt.StorageConfig
    let runtimeConfig ← rt.GetConfig
    let exitCommand ← wrapErr
      (env.CreateExitCommandArgs storageConfig runtimeConfig env.IsDebugLevelEnabled false false)
      "error creating infra container exit command"
    pure (options ++ [PodCreateOption.WithPodInfraExitCommand exitCommand])
  else
    pure options

/-- `errors.Errorf("pods presently do not support network mode %s", mode)`. -/
def unsupportedNetworkMode (mode : NamespaceMode) : GoError :=
  GoError.Errorf ("pods presently do not support network mode " ++ mode)

/-- The `switch p.NetNS.NSMode { ... }` statement (lines 105-130). -/
def netOptions (env : Env) (p : PodSpecGenerator)
    (options : List PodCreateOption) : Except GoError (List PodCreateOption) :=
  if p.NetNS.NSMode = specgen.Default ∨ p.NetNS.NSMode = "" then
    if p.NoInfra then
      pure options
    else if env.IsRootless then
      pure (options ++ [PodCreateOption.WithPodSlirp4netns p.NetworkOptions])
    else
      pure options
  else if p.NetNS.NSMode = specgen.Bridge then
    pure options
  else if p.NetNS.NSMode = specgen.Host then
    pure (options ++ [PodCreateOption.WithPodHostNetwork])
  else if p.NetNS.NSMode = specgen.Slirp then
    pure (options ++ [PodCreateOption.WithPodSlirp4netns p.NetworkOptions])
  else if p.NetNS.NSMode = specgen.NoNetwork then
    pure (options ++ [PodCreateOption.WithPodNoNetwork])
  else
    throw (unsupportedNetworkMode p.NetNS.NSMode)

/-- The `if len(p.PortMappings) > 0 { ... }` statement (lines 135-141). -/
def portOptions (env : Env) (p : PodSpecGenerator)
    (options : List PodCreateOption) : Except GoError (List PodCreateOption) :=
  if p.PortMappings.length > 0 then do
    let ports ← env.ParsePortMapping p.PortMappings
    pure (options ++ [PodCreateOption.WithInfraContainerPorts ports])
  else
    pure options

/-- `createPodOptions` (lines 24-150), statement by statement; `options` is
rebound where the Go code assigns to it. `len(x) > 0` is `x.length > 0`, for
strings too: both the byte length and the character count are positive exactly
for a non-empty string. The `logrus.Debugf` calls have no effect on the result
and are left out. -/
def createPodOptions (env : Env) (p : PodSpecGenerator) (rt : Runtime) :
    Except GoError (List PodCreateOption) := do
  let options : List PodCreateOption := []
  let options ← infraOptions env p rt options
  let options := appendIf options (p.CgroupParent.length > 0)
    (PodCreateOption.WithPodCgroupParent p.CgroupParent)
  let options := appendIf options (p.Labels.length > 0) (PodCreateOption.WithPodLabels p.Labels)
  let options := appendIf options (p.Name.length > 0) (PodCreateOption.WithPodName p.Name)
  let options := appendIf options (p.Hostname.length > 0)
    (PodCreateOption.WithPodHostname p.Hostname)
  let options := appendIf options (p.HostAdd.length > 0) (PodCreateOption.WithPodHosts p.HostAdd)
  let options := appendIf options (p.DNSServer.length > 0)
    (PodCreateOption.WithPodDNS (p.DNSServer.map env.IPString))
  let options := appendIf options (p.DNSOption.length > 0)
    (PodCreateOption.WithPodDNSOption p.DNSOption)
  let options := appendIf options (p.DNSSearch.length > 0)
    (PodCreateOption.WithPodDNSSearch p.DNSSearch)
  let options := appendSome options p.StaticIP PodCreateOption.WithPodStaticIP
  let options := appendSome options p.StaticMAC PodCreateOption.WithPodStaticMAC
  let options := appendIf options p.NoManageResolvConf PodCreateOption.WithPodUseImageResolvConf
  let options := appendIf options (p.CNINetworks.length > 0)
    (PodCreateOption.WithPodNetworks p.CNINetworks)
  let options := appendIf options (p.InfraImage.length > 0)
    (PodCreateOption.WithInfraImage p.InfraImage)
  let options := appendIf options (p.InfraName.length > 0)
    (PodCreateOption.WithInfraName p.InfraName)
  let options := appendIf options (p.InfraCommand.length > 0)
    (PodCreateOption.WithInfraCommand p.InfraCommand)
  let options := appendIf options (!env.IsDefault p.Pid) (PodCreateOption.WithPodPidNS p.Pid)
  let options ← netOptions env p options
  let options := appendIf options p.NoManageHosts PodCreateOption.WithPodUseImageHosts
  let options ← portOptions env p options
  let options := options ++ [PodCreateOption.WithPodCgroups]
  let options := appendSome options p.PodCreateCommand PodCreateOption.WithPodCreateCommand
  let options := appendIf options (p.InfraConmonPidFile.length > 0)
    (PodCreateOption.WithInfraConmonPidFile p.InfraConmonPidFile)
  return options

/-! ## The directive sequence in closed form -/

/-- A directive that is present exactly when its guard holds. -/
def guarded (guard : Bool) (o : PodCreateOption) : List PodCreateOption :=
  if guard then [o] else []

/-- A directive that is present exactly when an optional field is set. -/
def whenSet {α : Type} (field : Option α) (mk : α → PodCreateOption) : List PodCreateOption :=
  match field with
  | some a => [mk a]
  | none => []

/-- Directives emitted between the infra block and the network switch
(lines 48-103), in emission order. -/
def fieldDirectives (env : Env) (p : PodSpecGenerator) : List PodCreateOption :=
  guarded (p.CgroupParent.length > 0) (PodCreateOption.WithPodCgroupParent p.CgroupParent)
  ++ guarded (p.Labels.length > 0) (PodCreateOption.WithPodLabels p.Labels)
  ++ guarded (p.Name.length > 0) (PodCreateOption.WithPodName p.Name)
  ++ guarded (p.Hostname.length > 0) (PodCreateOption.WithPodHostname p.Hostname)
  ++ guarded (p.HostAdd.length > 0) (PodCreateOption.WithPodHosts p.HostAdd)
  ++ guarded (p.DNSServer.length > 0) (PodCreateOption.WithPodDNS (p.DNSServer.map env.IPString))
  ++ guarded (p.DNSOption.length > 0) (PodCreateOption.WithPodDNSOption p.DNSOption)
  ++ guarded (p.DNSSearch.length > 0) (PodCreateOption.WithPodDNSSearch p.DNSSearch)
  ++ whenSet p.StaticIP PodCreateOption.WithPodStaticIP
  ++ whenSet p.StaticMAC PodCreateOption.WithPodStaticMAC
  ++ guarded p.NoManageResolvConf PodCreateOption.WithPodUseImageResolvConf
  ++ guarded (p.CNINetworks.length > 0) (PodCreateOption.WithPodNetworks p.CNINetworks)
  ++ guarded (p.InfraImage.length > 0) (PodCreateOption.WithInfraImage p.InfraImage)
  ++ guarded (p.InfraName.length > 0) (PodCreateOption.WithInfraName p.InfraName)
  ++ guarded (p.InfraCommand.length > 0) (PodCreateOption.WithInfraCommand p.InfraCommand)
  ++ guarded (!env.IsDefault p.Pid) (PodCreateOption.WithPodPidNS p.Pid)

/-- Directives emitted after the port mappings (lines 142-148), in emission
order. -/
def tailDirectives (p : PodSpecGenerator) : List PodCreateOption :=
  [PodCreateOption.WithPodCgroups]
  ++ whenSet p.PodCreateCommand PodCreateOption.WithPodCreateCommand
  ++ guarded (p.InfraConmonPidFile.length > 0)
      (PodCreateOption.WithInfraConmonPidFile p.InfraConmonPidFile)

/-! ## Directive kinds -/

namespace PodCreateOption

/-- The "use host networking" directive. -/
def isHostNetwork : PodCreateOption → Bool
  | WithPodHostNetwork => true
  | _ => false

/-- The "use restricted user-space networking" directive, whatever its payload. -/
def isSlirp4netns : PodCreateOption → Bool
  | WithPodSlirp4netns _ => true
  | _ => false

/-- The "disable networking" directive. -/
def isNoNetwork : PodCreateOption → Bool
  | WithPodNoNetwork => true
  | _ => false

/-- The directives the network-mode switch can emit. -/
def isNetworkMode (o : PodCreateOption) : Bool :=
  o.isHostNetwork || o.isSlirp4netns || o.isNoNetwork

/-- The "enable infra container" directive. -/
def isInfraContainer : PodCreateOption → Bool
  | WithInfraContainer => true
  | _ => false

/-- The "additional user-defined networks" directive, whatever its payload. -/
def isPodNetworks : PodCreateOption → Bool
  | WithPodNetworks _ => true
  | _ => false

/-- The DNS-servers, DNS-options, DNS-search, static-IP and static-MAC
directives, whatever their payload. -/
def isDNSOrStatic : PodCreateOption → Bool
  | WithPodDNS _ => true
  | WithPodDNSOption _ => true
  | WithPodDNSSearch _ => true
  | WithPodStaticIP _ => true
  | WithPodStaticMAC _ => true
  | _ => false

end PodCreateOption

/-- The namespace-option resolver, asked for the shared namespaces of `p`,
returns no directive selected by `sel`. -/
def NamespaceOptionsAvoid (env : Env) (p : PodSpecGenerator)
    (sel : PodCreateOption → Bool) : Prop :=
  ∀ ns, env.GetNamespaceOptions p.SharedNamespaces = .ok ns → ∀ o ∈ ns, sel o = false

/-! ## The specification's network mode resolver -/

/-- Section 4.3 of the specification: from the declared mode, the "no infra
container" flag and whether the process is unprivileged, the single networking
directive to emit, none, or the unsupported-mode failure. -/
def resolveNetworkMode (mode : NamespaceMode) (noInfra unprivileged : Bool)
    (networkOptions : List (String × List String)) : Except GoError (Option PodCreateOption) :=
  if mode = specgen.Default ∨ mode = "" then
    if noInfra then .ok none
    else if unprivileged then .ok (some (PodCreateOption.WithPodSlirp4netns networkOptions))
    else .ok none
  else if mode = specgen.Bridge then .ok none
  else if mode = specgen.Host then .ok (some PodCreateOption.WithPodHostNetwork)
  else if mode = specgen.Slirp then .ok (some (PodCreateOption.WithPodSlirp4netns networkOptions))
  else if mode = specgen.NoNetwork then .ok (some PodCreateOption.WithPodNoNetwork)
  else .error (unsupportedNetworkMode mode)

/-! ## The ordered directive sequence of the specification -/

/-- The in-order concatenation of the directives of steps 1-10 of the
specification, each present exactly when its guard holds. `ns`, `exitCommand`
and `ports` are the results of the namespace-option resolver, the exit-command
synthesizer and the port-mapping parser; `net` is the directive chosen by the
network mode resolver, if any. -/
def orderedDirectives (env : Env) (p : PodSpecGenerator) (ns : List PodCreateOption)
    (exitCommand : List String) (net : Option PodCreateOption)
    (ports : List OCICNIPortMapping) : List PodCreateOption :=
  (if p.NoInfra then []
    else [PodCreateOption.WithInfraContainer] ++ ns
      ++ [PodCreateOption.WithPodInfraExitCommand exitCommand])
  ++ guarded (p.CgroupParent ≠ "") (PodCreateOption.WithPodCgroupParent p.CgroupParent)
  ++ guarded (p.Labels ≠ []) (PodCreateOption.WithPodLabels p.Labels)
  ++ guarded (p.Name ≠ "") (PodCreateOption.WithPodName p.Name)
  ++ guarded (p.Hostname ≠ "") (PodCreateOption.WithPodHostname p.Hostname)
  ++ guarded (p.HostAdd ≠ []) (PodCreateOption.WithPodHosts p.HostAdd)
  ++ guarded (p.DNSServer ≠ []) (PodCreateOption.WithPodDNS (p.DNSServer.map env.IPString))
  ++ guarded (p.DNSOption ≠ []) (PodCreateOption.WithPodDNSOption p.DNSOption)
  ++ guarded (p.DNSSearch ≠ []) (PodCreateOption.WithPodDNSSearch p.DNSSearch)
  ++ whenSet p.StaticIP PodCreateOption.WithPodStaticIP
  ++ whenSet p.StaticMAC PodCreateOption.WithPodStaticMAC
  ++ guarded p.NoManageResolvConf PodCreateOption.WithPodUseImageResolvConf
  ++ guarded (p.CNINetworks ≠ []) (PodCreateOption.WithPodNetworks p.CNINetworks)
  ++ guarded (p.InfraImage ≠ "") (PodCreateOption.WithInfraImage p.InfraImage)
  ++ guarded (p.InfraName ≠ "") (PodCreateOption.WithInfraName p.InfraName)
  ++ guarded (p.InfraCommand ≠ []) (PodCreateOption.WithInfraCommand p.InfraCommand)
  ++ guarded (!env.IsDefault p.Pid) (PodCreateOption.WithPodPidNS p.Pid)
  ++ net.toList
  ++ guarded p.NoManageHosts PodCreateOption.WithPodUseImageHosts
  ++ guarded (p.PortMappings ≠ []) (PodCreateOption.WithInfraContainerPorts ports)
  ++ [PodCreateOption.WithPodCgroups]
  ++ whenSet p.PodCreateCommand PodCreateOption.WithPodCreateCommand
  ++ guarded (p.InfraConmonPidFile ≠ "")
      (PodCreateOption.WithInfraConmonPidFile p.InfraConmonPidFile)

/-- `opts` is the ordered directive sequence of the specification for `p`:
the delegates that were consulted succeeded, and `opts` is the concatenation
`orderedDirectives` of their results and the guarded field directives. -/
def IsOrderedSequence (env : Env) (p : PodSpecGenerator) (rt : Runtime)
    (opts : List PodCreateOption) : Prop :=
  ∃ (ns : List PodCreateOption) (exitCommand : List String) (net : Option PodCreateOption)
    (ports : List OCICNIPortMapping),
    (p.NoInfra = false →
      env.GetNamespaceOptions p.SharedNamespaces = .ok ns ∧
      ∃ cfg, rt.GetConfig = .ok cfg ∧
        env.CreateExitCommandArgs rt.StorageConfig cfg env.IsDebugLevelEnabled false false
          = .ok exitCommand) ∧
    resolveNetworkMode p.NetNS.NSMode p.NoInfra env.IsRootless p.NetworkOptions = .ok net ∧
    (p.PortMappings ≠ [] → env.ParsePortMapping p.PortMappings = .ok ports) ∧
    opts = orderedDirectives env p ns exitCommand net ports

/-! ## Sample environment and specifications -/

/-- A sample environment: every delegate succeeds, the process is rootless. -/
def sampleEnv : Env where
  GetNamespaceOptions := fun ns => .ok (ns.map PodCreateOption.Other)
  CreateExitCommandArgs := fun store cfg debug _ _ =>
    .ok (["podman", "--root", store.GraphRoot, "--runtime", cfg.OCIRuntime]
      ++ (if debug then ["--log-level", "debug"] else []) ++ ["container", "cleanup"])
  ParsePortMapping := fun ms => .ok (ms.map fun m => ⟨8080, 80, "tcp", m⟩)
  IsRootless := true
  IsDebugLevelEnabled := false
  IPString := fun ip => String.intercalate "." (ip.map toString)
  IsDefault := fun n => n.NSMode = specgen.Default || n.NSMode = ""

/-- The sample environment run with elevated privilege. -/
def rootEnv : Env := { sampleEnv with IsRootless := false }

/-- A sample runtime whose configuration is available. -/
def sampleRuntime : Runtime where
  StorageConfig := ⟨"/var/lib/containers/storage", "/run/containers/storage"⟩
  GetConfig := .ok ⟨"runc"⟩

/-- A specification with every field empty: no infra container, mode unset. -/
def emptyPod : PodSpecGenerator where
  Name := ""
  Hostname := ""
  Labels := []
  NoInfra := true
  InfraConmonPidFile := ""
  InfraCommand := []
  InfraImage := ""
  InfraName := ""
  SharedNamespaces := []
  PodCreateCommand := none
  Pid := ⟨"", ""⟩
  NetNS := ⟨"", ""⟩
  StaticIP := none
  StaticMAC := none
  PortMappings := []
  CNINetworks := []
  NoManageResolvConf := false
  DNSServer := []
  DNSSearch := []
  DNSOption := []
  NoManageHosts := false
  HostAdd := []
  NetworkOptions := []
  CgroupParent := ""

/-- The pod of the specification's scenario: named "web", infra container
requested, network mode `Default`. -/
def webPod : PodSpecGenerator :=
  { emptyPod with
    Name := "web", NoInfra := false, NetNS := ⟨specgen.Default, ""⟩,
    SharedNamespaces := ["ipc", "uts"] }

/-- The sample environment with a namespace-option resolver that rejects the
mount and user namespaces. -/
def strictEnv : Env :=
  { sampleEnv with
    GetNamespaceOptions := fun ns =>
      if "mnt" ∈ ns ∨ "user" ∈ ns then
        .error (GoError.Errorf "namespace sharing not supported on pod level")
      else .ok (ns.map PodCreateOption.Other) }

/-- A pod asking for an infra container, the mount namespace shared, and a
network mode outside the supported ones. -/
def containerModePod : PodSpecGenerator :=
  { emptyPod with
    NoInfra := false, NetNS := ⟨"container", "abc"⟩, SharedNamespaces := ["mnt"],
    PortMappings := ["8080:80"] }

/-- A pod with an infra container and network mode `Host`. -/
def hostPod : PodSpecGenerator :=
  { webPod with NetNS := ⟨specgen.Host, ""⟩, NetworkOptions := [("mtu", ["1400"])] }

/-- A pod with an infra container and network mode `Slirp4netns`. -/
def slirpPod : PodSpecGenerator :=
  { webPod with NetNS := ⟨specgen.Slirp, ""⟩, NetworkOptions := [("mtu", ["1400"])] }

/-- A pod without infra container, network mode `Default`, that names a
user-defined network. -/
def cniPod : PodSpecGenerator :=
  { emptyPod with NetNS := ⟨specgen.Default, ""⟩, CNINetworks := ["backend"] }

/-- A directive that configures the pod's networking: one chosen by the
network mode switch, or the user-defined networks directive. -/
def PodCreateOption.isNetworking (o : PodCreateOption) : Bool :=
  o.isNetworkMode || o.isPodNetworks

/-- The sample environment with a port-mapping parser that rejects its input. -/
def rejectingEnv : Env :=
  { sampleEnv with
    ParsePortMapping := fun _ => .error (GoError.Errorf "invalid port mapping") }

/-- The sample environment with an exit-command synthesizer that fails. -/
def noExitCommandEnv : Env :=
  { sampleEnv with
    CreateExitCommandArgs := fun _ _ _ _ _ => .error (GoError.Errorf "no executable path") }

/-- A pod of the specification's scenario: mode `Host` and a malformed port
mapping, no infra container. -/
def malformedPortPod : PodSpecGenerator :=
  { emptyPod with NetNS := ⟨specgen.Host, ""⟩, PortMappings := ["8080:eighty"] }

/-- The pod named "web" (infra container, mode `Default`) with a malformed port
mapping. -/
def webPortPod : PodSpecGenerator :=
  { webPod with PortMappings := ["8080:eighty"] }

/-- A pod with an infra container that shares the mount namespace. -/
def mountSharingPod : PodSpecGenerator :=
  { webPod with SharedNamespaces := ["mnt"] }

/-- The delegates of the infra block, when the block runs, all succeed:
the namespace-option resolver, the runtime configuration and the
exit-command synthesizer. -/
def InfraDelegatesSucceed (env : Env) (p : PodSpecGenerator) (rt : Runtime) : Prop :=
  p.NoInfra = false →
    ∃ ns cfg exitCommand,
      env.GetNamespaceOptions p.SharedNamespaces = .ok ns ∧
      rt.GetConfig = .ok cfg ∧
      env.CreateExitCommandArgs rt.StorageConfig cfg env.IsDebugLevelEnabled false false
        = .ok exitCommand

/-! ## Both results of the Go function -/

/-- The pair `(options, err)` that `createPodOptions` returns in Go: the `nil`
slice is the empty list, the `nil` error is `none`. -/
abbrev Returned := List PodCreateOption × Option GoError

/-- Lines 28-47 with each `return` statement as written: `.error r` says the
function returned the pair `r`, `.ok options` that it goes on with `options`. -/
def infraReturns (env : Env) (p : PodSpecGenerator) (rt : Runtime)
    (options : List PodCreateOption) : Except Returned (List PodCreateOption) :=
  if !p.NoInfra then
    let options := options ++ [PodCreateOption.WithInfraContainer]
    match env.GetNamespaceOptions p.SharedNamespaces with
    | .error err => .error ([], some err)
    | .ok nsOptions =>
      let options := options ++ nsOptions
      let storageConfig := rt.StorageConfig
      match rt.GetConfig with
      | .error err => .error ([], some err)
      | .ok runtimeConfig =>
        match env.CreateExitCommandArgs storageConfig runtimeConfig env.IsDebugLevelEnabled
            false false with
        | .error err =>
          .error ([], some (GoError.Wrapf err "error creating infra container exit command"))
        | .ok exitCommand =>
          .ok (options ++ [PodCreateOption.WithPodInfraExitCommand exitCommand])
  else
    .ok options

/-- Lines 105-130 with the `return` statement of the `default` case as
written. -/
def netReturns (env : Env) (p : PodSpecGenerator)
    (options : List PodCreateOption) : Except Returned (List PodCreateOption) :=
  if p.NetNS.NSMode = specgen.Default ∨ p.NetNS.NSMode = "" then
    if p.NoInfra then
      .ok options
    else if env.IsRootless then
      .ok (options ++ [PodCreateOption.WithPodSlirp4netns p.NetworkOptions])
    else
      .ok options
  else if p.NetNS.NSMode = specgen.Bridge then
    .ok options
  else if p.NetNS.NSMode = specgen.Host then
    .ok (options ++ [PodCreateOption.WithPodHostNetwork])
  else if p.NetNS.NSMode = specgen.Slirp then
    .ok (options ++ [PodCreateOption.WithPodSlirp4netns p.NetworkOptions])
  else if p.NetNS.NSMode = specgen.NoNetwork then
    .ok (options ++ [PodCreateOption.WithPodNoNetwork])
  else
    .error ([], some (unsupportedNetworkMode p.NetNS.NSMode))

/-- Lines 135-141 with the `return` statement as written. -/
def portReturns (env : Env) (p : PodSpecGenerator)
    (options : List PodCreateOption) : Except Returned (List PodCreateOption) :=
  if p.PortMappings.length > 0 then
    match env.ParsePortMapping p.PortMappings with
    | .error err => .error ([], some err)
    | .ok ports => .ok (options ++ [PodCreateOption.WithInfraContainerPorts ports])
  else
    .ok options

/-- `createPodOptions` (lines 24-150) with both of its results: every
`return nil, err` of the source is the pair `([], some err)` and the final
`return options, nil` is `(options, none)`. -/
def createPodOptionsReturns (env : Env) (p : PodSpecGenerator) (rt : Runtime) : Returned :=
  let options : List PodCreateOption := []
  match infraReturns env p rt options with
  | .error r => r
  | .ok options =>
    let options := appendIf options (p.CgroupParent.length > 0)
      (PodCreateOption.WithPodCgroupParent p.CgroupParent)
    let options := appendIf options (p.Labels.length > 0) (PodCreateOption.WithPodLabels p.Labels)
    let options := appendIf options (p.Name.length > 0) (PodCreateOption.WithPodName p.Name)
    let options := appendIf options (p.Hostname.length > 0)
      (PodCreateOption.WithPodHostname p.Hostname)
    let options := appendIf options (p.HostAdd.length > 0) (PodCreateOption.WithPodHosts p.HostAdd)
    let options := appendIf options (p.DNSServer.length > 0)
      (PodCreateOption.WithPodDNS (p.DNSServer.map env.IPString))
    let options := appendIf options (p.DNSOption.length > 0)
      (PodCreateOption.WithPodDNSOption p.DNSOption)
    let options := appendIf options (p.DNSSearch.length > 0)
      (PodCreateOption.WithPodDNSSearch p.DNSSearch)
    let options := appendSome options p.StaticIP PodCreateOption.WithPodStaticIP
    let options := appendSome options p.StaticMAC PodCreateOption.WithPodStaticMAC
    let options := appendIf options p.NoManageResolvConf PodCreateOption.WithPodUseImageResolvConf
    let options := appendIf options (p.CNINetworks.length > 0)
      (PodCreateOption.WithPodNetworks p.CNINetworks)
    let options := appendIf options (p.InfraImage.length > 0)
      (PodCreateOption.WithInfraImage p.InfraImage)
    let options := appendIf options (p.InfraName.length > 0)
      (PodCreateOption.WithInfraName p.InfraName)
    let options := appendIf options (p.InfraCommand.length > 0)
      (PodCreateOption.WithInfraCommand p.InfraCommand)
    let options := appendIf options (!env.IsDefault p.Pid) (PodCreateOption.WithPodPidNS p.Pid)
    match netReturns env p options with
    | .error r => r
    | .ok options =>
      let options := appendIf options p.NoManageHosts PodCreateOption.WithPodUseImageHosts
      match portReturns env p options with
      | .error r => r
      | .ok options =>
        let options := options ++ [PodCreateOption.WithPodCgroups]
        let options := appendSome options p.PodCreateCommand
          PodCreateOption.WithPodCreateCommand
        let options := appendIf options (p.InfraConmonPidFile.length > 0)
          (PodCreateOption.WithInfraConmonPidFile p.InfraConmonPidFile)
        (options, none)

/-- The pair of Go results that an `Except` value stands for. -/
def toReturned (r : Except GoError (List PodCreateOption)) : Returned :=
  match r with
  | .ok options => (options, none)
  | .error err => ([], some err)

/-! ## `MakePod` -/

/-- `libpod.Pod`; the type is declared outside the translated file and a pod is
only handed back to the caller. -/
structure Pod where
  ID : String
  deriving DecidableEq, Repr

/-- The calls `MakePod` makes. -/
inductive Call where
  | Validate
  | createPodOptions
  | NewPod (options : List PodCreateOption)
  deriving DecidableEq, Repr

/-- The two methods `MakePod` calls that are defined outside the translated
file: `PodSpecGenerator.Validate`, which returns an error or `nil`, and
`Runtime.NewPod`, called with `context.Background()` and the options. -/
structure PodMethods where
  Validate : PodSpecGenerator → Option GoError
  NewPod : List PodCreateOption → Except GoError Pod

/-- `MakePod` (lines 13-22). The first component is what the function returns,
the second lists the calls it has made, in order. -/
def MakePod (m : PodMethods) (env : Env) (p : PodSpecGenerator) (rt : Runtime) :
    Except GoError Pod × List Call :=
  match m.Validate p with
  | some err => (.error err, [Call.Validate])
  | none =>
    match createPodOptions env p rt with
    | .error err => (.error err, [Call.Validate, Call.createPodOptions])
    | .ok options =>
      (m.NewPod options, [Call.Validate, Call.createPodOptions, Call.NewPod options])

/-- Sample methods: validation rejects a pod that names an infra image while
asking for no infra container; the constructor names the pod after the number
of options. -/
def sampleMethods : PodMethods where
  Validate := fun p =>
    if p.NoInfra ∧ p.InfraImage ≠ "" then
      some (GoError.Errorf "cannot set infra-image without an infra container")
    else none
  NewPod := fun options => .ok ⟨"pod-" ++ toString options.length⟩

/-- A pod that fails validation: no infra container, yet an infra image. -/
def invalidPod : PodSpecGenerator :=
  { emptyPod with InfraImage := "k8s.gcr.io/pause:3.2" }

/-- The slirp pod without network options. -/
def plainSlirpPod : PodSpecGenerator :=
  { slirpPod with NetworkOptions := [] }

/-- The "pod cgroups" directive. -/
def PodCreateOption.isPodCgroups : PodCreateOption → Bool
  | PodCreateOption.WithPodCgroups => true
  | _ => false

/-- The DNS-servers directive, whatever its payload. -/
def PodCreateOption.isPodDNS : PodCreateOption → Bool
  | PodCreateOption.WithPodDNS _ => true
  | _ => false

/-- The infra-enable directive or the exit-command directive. -/
def PodCreateOption.isInfraOrExit : PodCreateOption → Bool
  | PodCreateOption.WithInfraContainer => true
  | PodCreateOption.WithPodInfraExitCommand _ => true
  | _ => false

/-- The exit-command directive, whatever its payload. -/
def PodCreateOption.isExitCommand : PodCreateOption → Bool
  | PodCreateOption.WithPodInfraExitCommand _ => true
  | _ => false

/-- A pod with an infra container, two DNS servers, a static IP and MAC, a
create command and a conmon pid file. -/
def dnsPod : PodSpecGenerator :=
  { hostPod with
    DNSServer := [[10, 0, 0, 2], [10, 0, 0, 3]],
    StaticIP := some [10, 88, 0, 5],
    StaticMAC := some [2, 66, 172, 17, 0, 5],
    PodCreateCommand := some ["podman", "pod", "create"],
    InfraConmonPidFile := "/run/infra.pid" }

/-- The specification `p` with its static IP and static MAC removed. -/
def PodSpecGenerator.withoutStaticAddresses (p : PodSpecGenerator) : PodSpecGenerator :=
  { p with StaticIP := none, StaticMAC := none }

/-- A pod without infra container that still sets the infra image, name,
command, ports and conmon pid file. -/
def infraFieldsPod : PodSpecGenerator :=
  { emptyPod with
    InfraImage := "k8s.gcr.io/pause:3.2", InfraName := "infra", InfraCommand := ["/pause"],
    PortMappings := ["8080:80"], InfraConmonPidFile := "/run/infra.pid" }

/-- The sample environment with a namespace-option resolver that answers the
shared namespace "cgroup" with the pod-cgroups directive. -/
def cgroupSharingEnv : Env :=
  { sampleEnv with
    GetNamespaceOptions := fun ns =>
      .ok (ns.map fun n =>
        if n = "cgroup" then PodCreateOption.WithPodCgroups else PodCreateOption.Other n) }

/-- The pod named "web" sharing the cgroup and ipc namespaces. -/
def cgroupSharingPod : PodSpecGenerator :=
  { webPod with SharedNamespaces := ["cgroup", "ipc"] }

end Podman

/-! ## Image listing (`server/image_list.go`)

A shallow embedding of `ConvertImage` and `Server.ListImages`. A Go slice is
an `Option (List _)`, `none` being the `nil` slice, where the code tells `nil`
from empty; a Go map is an association list with distinct keys (`AList`); a
pointer is an `Option`. -/

namespace Crio

/-- Go `error` values; the image code only passes them on. -/
structure GoError where
  msg : String
  deriving DecidableEq, Repr

/-- A Go slice: `none` is the `nil` slice, `some []` an empty non-nil one. -/
abbrev Slice (α : Type) := Option (List α)

/-- `len(s)` of a slice. -/
def Slice.len {α : Type} (s : Slice α) : Nat :=
  match s with
  | none => 0
  | some l => l.length

/-- Go `int64`: an integer between -2^63 and 2^63 - 1. -/
structure GoInt64 where
  val : Int
  lo : -9223372036854775808 ≤ val
  hi : val ≤ 9223372036854775807

/-- The conversion `uint64(v)` of an `int64`: the value modulo 2^64. -/
def uint64 (v : GoInt64) : Nat :=
  (v.val % 18446744073709551616).toNat

/-- `strconv.FormatUint(n, base)`: the digits of `n` in the given base. -/
def FormatUint (n : Nat) (base : Nat) : String :=
  String.mk (Nat.toDigits base n)

/-- The constant of line 11. -/
def LAYER_ANNOTATION_PREFIX : String := "imageLayer."

/-- The fields of `storage.ImageResult` read by `ConvertImage`. The type is
declared outside the translated file; `LayersInfo` maps a layer to its size, a
signed 64-bit integer that the code compares with 0 and converts to
`uint64`. -/
structure ImageResult where
  ID : String
  RepoTags : Slice String
  RepoDigests : Slice String
  Size : Option Nat
  Digest : String
  User : String
  PreviousName : String
  LayersInfo : AList (fun _ : String => GoInt64)

/-- `types.ImageSpec`. -/
structure ImageSpec where
  Image : String
  Annotations : AList (fun _ : String => String)
  deriving DecidableEq

/-- `types.Image`; `UID` is the value of the `*types.Int64Value`, if any. -/
structure Image where
  ID : String
  RepoTags : Slice String
  RepoDigests : Slice String
  Size : Nat
  UID : Option Int
  Username : String
  Spec : Option ImageSpec
  deriving DecidableEq

/-- `types.ImageFilter`. -/
structure ImageFilter where
  Image : Option ImageSpec

/-- `types.ListImagesRequest`. -/
structure ListImagesRequest where
  Filter : Option ImageFilter

/-- `types.ListImagesResponse`. -/
structure ListImagesResponse where
  Images : List (Option Image)
  deriving DecidableEq

/-- The part of `Server` used by `ListImages`: the system context of its
configuration and the `ListImages` method of its storage image server. -/
structure Server where
  SystemContext : String
  StorageListImages : String → String → Except GoError (List ImageResult)

/-- One round of the loop of lines 57-62. -/
def addLayer (layers : AList (fun _ : String => String)) (key : String) (value : GoInt64) :
    AList (fun _ : String => String) :=
  if value.val > 0 then
    layers.insert ( LAYER_ANNOTATION_PREFIX ++ key) (FormatUint (uint64 value) 10)
  else
    layers

/-- `ConvertImage` (lines 38-82). `getUserFromImage` is defined outside the
translated file and returns an optional uid and a user name. The `range` over
the map visits the entries in the order of the association list. The Go
variables `from` and `to` are `frm` and `image`. -/
def ConvertImage (getUserFromImage : String → Option Int × String)
    (frm : Option ImageResult) : Option Image :=
  match frm with
  | none => none
  | some frm =>
    let repoTags : Slice String := some []
    let repoDigests : Slice String := some []
    let repoTags := if frm.RepoTags.len > 0 then frm.RepoTags else repoTags
    let repoDigests :=
      if frm.RepoDigests.len > 0 then frm.RepoDigests
      else if frm.PreviousName ≠ "" ∧ frm.Digest ≠ "" then
        some [frm.PreviousName ++ "@" ++ frm.Digest]
      else repoDigests
    let layers : AList (fun _ : String => String) := ∅
    let layers := frm.LayersInfo.foldl addLayer layers
    let image : Image :=
      { ID := frm.ID, RepoTags := repoTags, RepoDigests := repoDigests, Size := 0, UID := none,
        Username := "", Spec := some { Image := frm.ID, Annotations := layers } }
    let (uid, username) := getUserFromImage frm.User
    let image := { image with Username := username }
    let image := match uid with
      | some v => { image with UID := some v }
      | none => image
    let image := match frm.Size with
      | some size => { image with Size := size }
      | none => image
    some image

/-- `Server.ListImages` (lines 14-33); the request pointer is dereferenced
unconditionally by the code and is a plain value here. -/
def ListImages (s : Server) (getUserFromImage : String → Option Int × String)
    (req : ListImagesRequest) : Except GoError ListImagesResponse :=
  let filter := ""
  let reqFilter := req.Filter
  let filter := match reqFilter with
    | some reqFilter =>
      let filterImage := reqFilter.Image
      match filterImage with
      | some filterImage => filterImage.Image
      | none => filter
    | none => filter
  match s.StorageListImages s.SystemContext filter with
  | .error err => .error err
  | .ok results =>
    let resp : ListImagesResponse := { Images := [] }
    let resp := results.foldl
      (fun resp result =>
        { resp with Images := resp.Images ++ [ConvertImage getUserFromImage (some result)] })
      resp
    .ok resp

/-- No uid, user name as given. -/
def sampleUser (user : String) : Option Int × String := (none, user)

/-- An image with one tag, a previous name and digest, and three layers of
which one is empty. -/
def sampleImage : ImageResult where
  ID := "sha256:0a1b"
  RepoTags := some ["docker.io/library/busybox:latest"]
  RepoDigests := none
  Size := some 1234
  Digest := "sha256:77aa"
  User := "nobody"
  PreviousName := "docker.io/library/busybox"
  LayersInfo :=
    ((∅ : AList (fun _ : String => GoInt64)).insert "base" ⟨4096, by decide, by decide⟩).insert
      "empty" ⟨0, by decide, by decide⟩

/-- The annotation written for a layer of positive size. -/
def layerEntry (e : Sigma (fun _ : String => GoInt64)) : Sigma (fun _ : String => String) :=
  ⟨ LAYER_ANNOTATION_PREFIX ++ e.1, FormatUint (uint64 e.2) 10⟩

/-- A server whose store knows one image and fails for the filter
"missing". -/
def sampleServer : Server where
  SystemContext := "default"
  StorageListImages := fun _ filter =>
    if filter = "missing" then .error ⟨"image not known"⟩ else .ok [sampleImage]

/-- A request that filters on an image name. -/
def requestFor (name : String) : ListImagesRequest :=
  ⟨some ⟨some ⟨name, ∅⟩⟩⟩

end Crio

/-! # Theorems -/

namespace Podman

/-! ## Basic facts about the translated function -/

theorem string_length_pos (s : String) : decide (s.length > 0) = decide (s ≠ "") := by
  cases s with
  | mk data =>
    cases data with
    | nil => simp [String.length]
    | cons c cs =>
      have hne : (String.mk (c :: cs)) ≠ "" := by
        intro h
        have := congrArg String.data h
        simp at this
      simp [String.length, hne]

theorem list_length_pos {α : Type} [DecidableEq α] (l : List α) :
    decide (l.length > 0) = decide (l ≠ []) := by
  cases l <;> simp

theorem netOptions_nil (env : Env) (p : PodSpecGenerator) :
    netOptions env p [] =
      (resolveNetworkMode p.NetNS.NSMode p.NoInfra env.IsRootless p.NetworkOptions).map
        Option.toList := by
  unfold netOptions resolveNetworkMode
  repeat' split
  all_goals simp [Except.map, pure, Except.pure, throw, throwThe, MonadExceptOf.throw]

theorem infraOptions_ok (env : Env) (p : PodSpecGenerator) (rt : Runtime)
    (infra : List PodCreateOption) (h : infraOptions env p rt [] = .ok infra) :
    (p.NoInfra = true ∧ infra = []) ∨
    (p.NoInfra = false ∧ ∃ ns cfg exitCommand,
      env.GetNamespaceOptions p.SharedNamespaces = .ok ns ∧
      rt.GetConfig = .ok cfg ∧
      env.CreateExitCommandArgs rt.StorageConfig cfg env.IsDebugLevelEnabled false false
        = .ok exitCommand ∧
      infra = [PodCreateOption.WithInfraContainer] ++ ns
        ++ [PodCreateOption.WithPodInfraExitCommand exitCommand]) := by
  unfold infraOptions at h
  cases hI : p.NoInfra with
  | true =>
    left
    simp [hI, pure, Except.pure] at h
    exact ⟨rfl, h⟩
  | false =>
    right
    refine ⟨rfl, ?_⟩
    simp only [hI, Bool.not_false, if_true, bind, Except.bind] at h
    cases hns : env.GetNamespaceOptions p.SharedNamespaces with
    | error e => simp [hns] at h
    | ok ns =>
      cases hcfg : rt.GetConfig with
      | error e => simp [hns, hcfg] at h
      | ok cfg =>
        cases hec : env.CreateExitCommandArgs rt.StorageConfig cfg env.IsDebugLevelEnabled
            false false with
        | error e => simp [hns, hcfg, hec, wrapErr] at h
        | ok ec =>
          simp [hns, hcfg, hec, wrapErr, pure, Except.pure] at h
          exact ⟨ns, cfg, ec, rfl, rfl, hec, by simp [← h]⟩

theorem portOptions_ok (env : Env) (p : PodSpecGenerator)
    (ports : List PodCreateOption) (h : portOptions env p [] = .ok ports) :
    (p.PortMappings = [] ∧ ports = []) ∨
    (p.PortMappings ≠ [] ∧ ∃ parsed, env.ParsePortMapping p.PortMappings = .ok parsed ∧
      ports = [PodCreateOption.WithInfraContainerPorts parsed]) := by
  unfold portOptions at h
  cases hpm : p.PortMappings with
  | nil =>
    left
    simp [hpm, pure, Except.pure] at h
    exact ⟨rfl, h⟩
  | cons m ms =>
    right
    refine ⟨by simp, ?_⟩
    rw [hpm] at h
    cases hparse : env.ParsePortMapping (m :: ms) with
    | error e => simp [hparse, bind, Except.bind] at h
    | ok parsed =>
      simp [hparse, bind, Except.bind, pure, Except.pure] at h
      exact ⟨parsed, rfl, h.symm⟩


theorem appendIf_eq (options : List PodCreateOption) (c : Bool) (o : PodCreateOption) :
    appendIf options c o = options ++ guarded c o := by
  cases c <;> simp [appendIf, guarded]

theorem appendSome_eq {α : Type} (options : List PodCreateOption) (field : Option α)
    (mk : α → PodCreateOption) :
    appendSome options field mk = options ++ whenSet field mk := by
  cases field <;> simp [appendSome, whenSet]

theorem netOptions_append (env : Env) (p : PodSpecGenerator) (options : List PodCreateOption) :
    netOptions env p options = (netOptions env p []).map (fun net => options ++ net) := by
  unfold netOptions
  repeat' split
  all_goals simp [Except.map, pure, Except.pure, throw, throwThe, MonadExceptOf.throw]

theorem portOptions_append (env : Env) (p : PodSpecGenerator) (options : List PodCreateOption) :
    portOptions env p options = (portOptions env p []).map (fun ports => options ++ ports) := by
  unfold portOptions
  split
  · cases env.ParsePortMapping p.PortMappings <;>
      simp [Except.map, pure, Except.pure, bind, Except.bind]
  · simp [Except.map, pure, Except.pure]

/-- Closed form of `createPodOptions`: the three fallible blocks run in source
order and the result is the concatenation of all emitted directives. -/
theorem createPodOptions_eq (env : Env) (p : PodSpecGenerator) (rt : Runtime) :
    createPodOptions env p rt =
      (infraOptions env p rt []).bind (fun infra =>
        (netOptions env p []).bind (fun net =>
          (portOptions env p []).bind (fun ports =>
            .ok (infra ++ fieldDirectives env p ++ net
              ++ guarded p.NoManageHosts PodCreateOption.WithPodUseImageHosts
              ++ ports ++ tailDirectives p)))) := by
  unfold createPodOptions
  simp only [appendIf_eq, appendSome_eq, bind, pure]
  cases hi : infraOptions env p rt [] with
  | error e => simp [Except.bind]
  | ok infra =>
    simp only [Except.bind]
    rw [netOptions_append]
    cases hn : netOptions env p [] with
    | error e => simp [Except.map]
    | ok net =>
      simp only [Except.map]
      rw [portOptions_append]
      cases hp : portOptions env p [] with
      | error e => simp [Except.map]
      | ok ports =>
        simp [Except.map, Except.pure, fieldDirectives, tailDirectives, List.append_assoc]

theorem createPodOptions_ok (env : Env) (p : PodSpecGenerator) (rt : Runtime)
    (opts : List PodCreateOption) (h : createPodOptions env p rt = .ok opts) :
    ∃ infra net ports,
      infraOptions env p rt [] = .ok infra ∧
      resolveNetworkMode p.NetNS.NSMode p.NoInfra env.IsRootless p.NetworkOptions = .ok net ∧
      portOptions env p [] = .ok ports ∧
      opts = infra ++ fieldDirectives env p ++ net.toList
        ++ guarded p.NoManageHosts PodCreateOption.WithPodUseImageHosts
        ++ ports ++ tailDirectives p := by
  rw [createPodOptions_eq, netOptions_nil] at h
  cases hi : infraOptions env p rt [] with
  | error e => simp [hi, Except.bind] at h
  | ok infra =>
    cases hn : resolveNetworkMode p.NetNS.NSMode p.NoInfra env.IsRootless p.NetworkOptions with
    | error e => simp [hi, hn, Except.bind, Except.map] at h
    | ok net =>
      cases hp : portOptions env p [] with
      | error e => simp [hi, hn, hp, Except.bind, Except.map] at h
      | ok ports =>
        simp only [hi, hn, hp, Except.bind, Except.map, Except.ok.injEq] at h
        exact ⟨infra, net, ports, rfl, rfl, rfl, h.symm⟩

theorem infraOptions_noInfra (env : Env) (p : PodSpecGenerator) (rt : Runtime)
    (h : p.NoInfra = true) : infraOptions env p rt [] = .ok [] := by
  simp [infraOptions, h, pure, Except.pure]

theorem infraOptions_infra (env : Env) (p : PodSpecGenerator) (rt : Runtime)
    (ns : List PodCreateOption) (cfg : Config) (ec : List String)
    (h : p.NoInfra = false)
    (hns : env.GetNamespaceOptions p.SharedNamespaces = .ok ns)
    (hcfg : rt.GetConfig = .ok cfg)
    (hec : env.CreateExitCommandArgs rt.StorageConfig cfg env.IsDebugLevelEnabled false false
      = .ok ec) :
    infraOptions env p rt [] = .ok ([PodCreateOption.WithInfraContainer] ++ ns
      ++ [PodCreateOption.WithPodInfraExitCommand ec]) := by
  simp [infraOptions, h, hns, hcfg, hec, wrapErr, bind, Except.bind, pure, Except.pure]

theorem infraOptions_succeeds (env : Env) (p : PodSpecGenerator) (rt : Runtime)
    (h : InfraDelegatesSucceed env p rt) : ∃ infra, infraOptions env p rt [] = .ok infra := by
  cases hI : p.NoInfra with
  | true => exact ⟨[], infraOptions_noInfra env p rt hI⟩
  | false =>
    obtain ⟨ns, cfg, ec, hns, hcfg, hec⟩ := h hI
    exact ⟨_, infraOptions_infra env p rt ns cfg ec hI hns hcfg hec⟩

theorem mem_guarded (c : Bool) (o x : PodCreateOption) :
    x ∈ guarded c o ↔ c = true ∧ x = o := by
  cases c <;> simp [guarded]

theorem mem_whenSet {α : Type} (field : Option α) (mk : α → PodCreateOption)
    (x : PodCreateOption) : x ∈ whenSet field mk ↔ ∃ a, field = some a ∧ x = mk a := by
  cases field <;> simp [whenSet]

theorem resolveNetworkMode_isNetworkMode (mode : NamespaceMode) (noInfra unprivileged : Bool)
    (networkOptions : List (String × List String)) (o : PodCreateOption)
    (h : resolveNetworkMode mode noInfra unprivileged networkOptions = .ok (some o)) :
    o.isNetworkMode = true := by
  unfold resolveNetworkMode at h
  repeat' split at h
  all_goals simp at h
  all_goals subst h
  all_goals rfl

theorem fieldDirectives_not_networkMode (env : Env) (p : PodSpecGenerator) :
    ∀ o ∈ fieldDirectives env p, o.isNetworkMode = false := by
  intro o ho
  simp only [fieldDirectives, List.mem_append, mem_guarded, mem_whenSet] at ho
  casesm* _ ∨ _, _ ∧ _, ∃ _, _ <;> subst_vars <;> rfl

theorem tailDirectives_not_networkMode (p : PodSpecGenerator) :
    ∀ o ∈ tailDirectives p, o.isNetworkMode = false := by
  intro o ho
  simp only [tailDirectives, List.mem_append, List.mem_singleton, mem_guarded, mem_whenSet] at ho
  casesm* _ ∨ _, _ ∧ _, ∃ _, _ <;> subst_vars <;> rfl

theorem filter_eq_nil_of_forall (sel : PodCreateOption → Bool) (l : List PodCreateOption)
    (h : ∀ o ∈ l, sel o = false) : l.filter sel = [] := by
  rw [List.filter_eq_nil_iff]
  intro a ha
  simp [h a ha]

/-- The network-mode directives of a successful result are exactly the choice
of the network mode resolver, provided the namespace-option resolver returns
none of them. -/
theorem createPodOptions_filter_networkMode (env : Env) (p : PodSpecGenerator) (rt : Runtime)
    (opts : List PodCreateOption) (h : createPodOptions env p rt = .ok opts)
    (hns : NamespaceOptionsAvoid env p PodCreateOption.isNetworkMode) :
    ∃ net, resolveNetworkMode p.NetNS.NSMode p.NoInfra env.IsRootless p.NetworkOptions = .ok net ∧
      opts.filter PodCreateOption.isNetworkMode = net.toList := by
  obtain ⟨infra, net, ports, hi, hn, hp, rfl⟩ := createPodOptions_ok env p rt opts h
  refine ⟨net, hn, ?_⟩
  have hinfra : infra.filter PodCreateOption.isNetworkMode = [] := by
    apply filter_eq_nil_of_forall
    rcases infraOptions_ok env p rt infra hi with ⟨_, rfl⟩ | ⟨_, ns, cfg, ec, hns', _, _, rfl⟩
    · simp
    · intro o ho
      simp only [List.mem_append, List.mem_singleton] at ho
      rcases ho with (rfl | ho) | rfl
      · rfl
      · exact hns ns hns' o ho
      · rfl
  have hports : ports.filter PodCreateOption.isNetworkMode = [] := by
    apply filter_eq_nil_of_forall
    rcases portOptions_ok env p ports hp with ⟨_, rfl⟩ | ⟨_, parsed, _, rfl⟩
    · simp
    · intro o ho
      simp only [List.mem_singleton] at ho
      subst ho
      rfl
  have hhosts : (guarded p.NoManageHosts PodCreateOption.WithPodUseImageHosts).filter
      PodCreateOption.isNetworkMode = [] := by
    apply filter_eq_nil_of_forall
    intro o ho
    rw [mem_guarded] at ho
    rw [ho.2]
    rfl
  have hnet : net.toList.filter PodCreateOption.isNetworkMode = net.toList := by
    cases net with
    | none => rfl
    | some o =>
      simp [Option.toList, List.filter, resolveNetworkMode_isNetworkMode _ _ _ _ o hn]
  simp only [List.filter_append, hinfra, hports, hhosts, hnet,
    filter_eq_nil_of_forall _ _ (fieldDirectives_not_networkMode env p),
    filter_eq_nil_of_forall _ _ (tailDirectives_not_networkMode p),
    List.nil_append, List.append_nil]

theorem countP_networkMode_sub (sel : PodCreateOption → Bool)
    (hsel : ∀ o, sel o = true → o.isNetworkMode = true) (l : List PodCreateOption) :
    l.countP sel = (l.filter PodCreateOption.isNetworkMode).countP sel := by
  rw [List.countP_filter]
  congr 1
  funext o
  cases hs : sel o with
  | false => simp
  | true => simp [hsel o hs]

theorem sampleEnv_avoid (p : PodSpecGenerator) (sel : PodCreateOption → Bool)
    (hsel : ∀ n, sel (PodCreateOption.Other n) = false) : NamespaceOptionsAvoid sampleEnv p sel := by
  intro ns hns o ho
  simp only [sampleEnv, Except.ok.injEq] at hns
  subst hns
  rw [List.mem_map] at ho
  obtain ⟨n, _, rfl⟩ := ho
  exact hsel n

theorem filter_guarded (sel : PodCreateOption → Bool) (c : Bool) (o : PodCreateOption) :
    (guarded c o).filter sel = if sel o then guarded c o else [] := by
  cases c <;> cases hs : sel o <;> simp [guarded, List.filter, hs]

theorem filter_whenSet_of_false {α : Type} (sel : PodCreateOption → Bool) (field : Option α)
    (mk : α → PodCreateOption) (h : ∀ a, sel (mk a) = false) :
    (whenSet field mk).filter sel = [] := by
  cases field <;> simp [whenSet, List.filter, h]

theorem rootEnv_avoid (p : PodSpecGenerator) (sel : PodCreateOption → Bool)
    (hsel : ∀ n, sel (PodCreateOption.Other n) = false) : NamespaceOptionsAvoid rootEnv p sel :=
  sampleEnv_avoid p sel hsel

/-- Where each directive of a successful result comes from. -/
theorem mem_createPodOptions (env : Env) (p : PodSpecGenerator) (rt : Runtime)
    (opts : List PodCreateOption) (h : createPodOptions env p rt = .ok opts)
    (o : PodCreateOption) (ho : o ∈ opts) :
    (p.NoInfra = false ∧
      (o = PodCreateOption.WithInfraContainer ∨
       (∃ ns, env.GetNamespaceOptions p.SharedNamespaces = .ok ns ∧ o ∈ ns) ∨
       ∃ ec, o = PodCreateOption.WithPodInfraExitCommand ec)) ∨
    o ∈ fieldDirectives env p ∨
    resolveNetworkMode p.NetNS.NSMode p.NoInfra env.IsRootless p.NetworkOptions = .ok (some o) ∨
    (p.NoManageHosts = true ∧ o = PodCreateOption.WithPodUseImageHosts) ∨
    (p.PortMappings ≠ [] ∧ ∃ parsed, o = PodCreateOption.WithInfraContainerPorts parsed) ∨
    o ∈ tailDirectives p := by
  obtain ⟨infra, net, ports, hi, hn, hp, rfl⟩ := createPodOptions_ok env p rt opts h
  simp only [List.mem_append] at ho
  rcases ho with ((((ho | ho) | ho) | ho) | ho) | ho
  · left
    rcases infraOptions_ok env p rt infra hi with ⟨_, rfl⟩ | ⟨hI, ns, cfg, ec, hns, _, _, rfl⟩
    · simp at ho
    · refine ⟨hI, ?_⟩
      simp only [List.mem_append, List.mem_singleton] at ho
      rcases ho with (rfl | ho) | rfl
      · exact Or.inl rfl
      · exact Or.inr (Or.inl ⟨ns, hns, ho⟩)
      · exact Or.inr (Or.inr ⟨ec, rfl⟩)
  · exact Or.inr (Or.inl ho)
  · right; right; left
    cases net with
    | none => simp at ho
    | some d =>
      simp only [Option.toList, List.mem_singleton] at ho
      rw [ho]
      exact hn
  · right; right; right; left
    exact (mem_guarded _ _ _).1 ho
  · right; right; right; right; left
    rcases portOptions_ok env p ports hp with ⟨_, rfl⟩ | ⟨hP, parsed, _, rfl⟩
    · simp at ho
    · simp only [List.mem_singleton] at ho
      exact ⟨hP, parsed, ho⟩
  · exact Or.inr (Or.inr (Or.inr (Or.inr (Or.inr ho))))

theorem resolveNetworkMode_default_noInfra (mode : NamespaceMode) (unprivileged : Bool)
    (networkOptions : List (String × List String))
    (hmode : mode = specgen.Default ∨ mode = "") :
    resolveNetworkMode mode true unprivileged networkOptions = .ok none := by
  simp [resolveNetworkMode, hmode]

theorem resolveNetworkMode_cases (mode : NamespaceMode) (noInfra unprivileged : Bool)
    (networkOptions : List (String × List String)) (o : PodCreateOption)
    (h : resolveNetworkMode mode noInfra unprivileged networkOptions = .ok (some o)) :
    o = PodCreateOption.WithPodHostNetwork ∨
    o = PodCreateOption.WithPodSlirp4netns networkOptions ∨
    o = PodCreateOption.WithPodNoNetwork := by
  unfold resolveNetworkMode at h
  repeat' split at h
  all_goals simp at h
  all_goals subst h
  all_goals simp

theorem resolveNetworkMode_recognized (mode : NamespaceMode) (noInfra unprivileged : Bool)
    (networkOptions : List (String × List String))
    (hmode : mode ∈ [specgen.Default, "", specgen.Bridge, specgen.Host, specgen.Slirp,
      specgen.NoNetwork]) :
    ∃ net, resolveNetworkMode mode noInfra unprivileged networkOptions = .ok net := by
  unfold resolveNetworkMode
  repeat' split
  all_goals first
    | exact ⟨_, rfl⟩
    | (simp only [List.mem_cons, List.mem_singleton, List.not_mem_nil, or_false] at hmode
       simp_all)

theorem portOptions_error (env : Env) (p : PodSpecGenerator) (e : GoError)
    (hports : p.PortMappings ≠ []) (hparse : env.ParsePortMapping p.PortMappings = .error e) :
    portOptions env p [] = .error e := by
  have hlen : p.PortMappings.length > 0 := List.length_pos.2 hports
  simp [portOptions, hlen, hparse, bind, Except.bind]

theorem createPodOptions_port_error (env : Env) (p : PodSpecGenerator) (rt : Runtime)
    (e : GoError)
    (hports : p.PortMappings ≠ [])
    (hmode : p.NetNS.NSMode ∈ [specgen.Default, "", specgen.Bridge, specgen.Host,
      specgen.Slirp, specgen.NoNetwork])
    (hinfra : InfraDelegatesSucceed env p rt)
    (hparse : env.ParsePortMapping p.PortMappings = .error e) :
    createPodOptions env p rt = .error e := by
  obtain ⟨infra, hi⟩ := infraOptions_succeeds env p rt hinfra
  obtain ⟨net, hn⟩ := resolveNetworkMode_recognized p.NetNS.NSMode p.NoInfra env.IsRootless
    p.NetworkOptions hmode
  rw [createPodOptions_eq, netOptions_nil, hi, hn, portOptions_error env p e hports hparse]
  rfl

theorem createPodOptions_namespace_error (env : Env) (p : PodSpecGenerator) (rt : Runtime)
    (e : GoError) (hI : p.NoInfra = false)
    (hns : env.GetNamespaceOptions p.SharedNamespaces = .error e) :
    createPodOptions env p rt = .error e := by
  have hi : infraOptions env p rt [] = .error e := by
    simp [infraOptions, hI, hns, bind, Except.bind]
  rw [createPodOptions_eq, hi]
  rfl

theorem createPodOptions_exitCommand_error (env : Env) (p : PodSpecGenerator) (rt : Runtime)
    (ns : List PodCreateOption) (cfg : Config) (e : GoError) (hI : p.NoInfra = false)
    (hns : env.GetNamespaceOptions p.SharedNamespaces = .ok ns)
    (hcfg : rt.GetConfig = .ok cfg)
    (hec : env.CreateExitCommandArgs rt.StorageConfig cfg env.IsDebugLevelEnabled false false
      = .error e) :
    createPodOptions env p rt
      = .error (GoError.Wrapf e "error creating infra container exit command") := by
  have hi : infraOptions env p rt [] =
      .error (GoError.Wrapf e "error creating infra container exit command") := by
    simp [infraOptions, hI, hns, hcfg, hec, wrapErr, bind, Except.bind]
  rw [createPodOptions_eq, hi]
  rfl

/-! ## C1: the ordered directive sequence -/

/-- C1. Whenever `createPodOptions` succeeds, the returned sequence is exactly
the in-order concatenation of the directives of steps 1-10, each present iff
its guard holds: the infra block (infra-enable, namespace options, exit
command) iff `NoInfra` is false, then cgroup parent, labels, name, hostname,
extra hosts, DNS servers, DNS options, DNS search, static IP, static MAC,
use-image-resolv-conf, user-defined networks, infra image, infra name, infra
command, pid namespace, the resolved networking directive, use-image-hosts,
infra container ports, pod cgroups, create command, infra conmon pid file. -/
theorem createPodOptions_ordered_sequence (env : Env) (p : PodSpecGenerator) (rt : Runtime)
    (opts : List PodCreateOption) (h : createPodOptions env p rt = .ok opts) :
    IsOrderedSequence env p rt opts := by
  obtain ⟨infra, net, ports, hi, hn, hp, rfl⟩ := createPodOptions_ok env p rt opts h
  have hfield : ∀ ns ec parsed,
      orderedDirectives env p ns ec net parsed =
        (if p.NoInfra then []
          else [PodCreateOption.WithInfraContainer] ++ ns
            ++ [PodCreateOption.WithPodInfraExitCommand ec])
        ++ fieldDirectives env p ++ net.toList
        ++ guarded p.NoManageHosts PodCreateOption.WithPodUseImageHosts
        ++ guarded (p.PortMappings ≠ []) (PodCreateOption.WithInfraContainerPorts parsed)
        ++ tailDirectives p := by
    intro ns ec parsed
    simp only [orderedDirectives, fieldDirectives, tailDirectives, string_length_pos,
      list_length_pos, List.append_assoc]
  rcases infraOptions_ok env p rt infra hi with ⟨hI, rfl⟩ | ⟨hI, ns, cfg, ec, hns, hcfg, hec, rfl⟩
  · rcases portOptions_ok env p ports hp with ⟨hP, rfl⟩ | ⟨hP, parsed, hparse, rfl⟩
    · refine ⟨[], [], net, [], ?_, hn, ?_, ?_⟩
      · intro hf; rw [hI] at hf; cases hf
      · intro hne; exact absurd hP hne
      · rw [hfield]; simp [hI, hP, guarded]
    · refine ⟨[], [], net, parsed, ?_, hn, fun _ => hparse, ?_⟩
      · intro hf; rw [hI] at hf; cases hf
      · rw [hfield]; simp [hI, hP, guarded]
  · rcases portOptions_ok env p ports hp with ⟨hP, rfl⟩ | ⟨hP, parsed, hparse, rfl⟩
    · refine ⟨ns, ec, net, [], fun _ => ⟨hns, cfg, hcfg, hec⟩, hn, ?_, ?_⟩
      · intro hne; exact absurd hP hne
      · rw [hfield]; simp [hI, hP, guarded]
    · refine ⟨ns, ec, net, parsed, fun _ => ⟨hns, cfg, hcfg, hec⟩, hn, fun _ => hparse, ?_⟩
      rw [hfield]; simp [hI, hP, guarded]

/-- The sequence built for the rootless "web" pod is the ordered sequence. -/
theorem createPodOptions_ordered_sequence_witness :
    createPodOptions sampleEnv webPod sampleRuntime = .ok
      [PodCreateOption.WithInfraContainer, PodCreateOption.Other "ipc",
       PodCreateOption.Other "uts",
       PodCreateOption.WithPodInfraExitCommand
         ["podman", "--root", "/var/lib/containers/storage", "--runtime", "runc",
          "container", "cleanup"],
       PodCreateOption.WithPodName "web", PodCreateOption.WithPodSlirp4netns [],
       PodCreateOption.WithPodCgroups] ∧
    IsOrderedSequence sampleEnv webPod sampleRuntime
      [PodCreateOption.WithInfraContainer, PodCreateOption.Other "ipc",
       PodCreateOption.Other "uts",
       PodCreateOption.WithPodInfraExitCommand
         ["podman", "--root", "/var/lib/containers/storage", "--runtime", "runc",
          "container", "cleanup"],
       PodCreateOption.WithPodName "web", PodCreateOption.WithPodSlirp4netns [],
       PodCreateOption.WithPodCgroups] :=
  ⟨rfl, createPodOptions_ordered_sequence sampleEnv webPod sampleRuntime _ rfl⟩

/-! ## C2: unsupported network modes -/

theorem resolveNetworkMode_unsupported (mode : NamespaceMode) (noInfra unprivileged : Bool)
    (networkOptions : List (String × List String))
    (hmode : mode ∉ [specgen.Default, "", specgen.Bridge, specgen.Host, specgen.Slirp,
      specgen.NoNetwork]) :
    resolveNetworkMode mode noInfra unprivileged networkOptions
      = .error (unsupportedNetworkMode mode) := by
  simp only [List.mem_cons, List.mem_singleton, List.not_mem_nil, or_false, not_or] at hmode
  obtain ⟨h1, h2, h3, h4, h5, h6⟩ := hmode
  simp [resolveNetworkMode, h1, h2, h3, h4, h5, h6]

/-- C2, as stated, fails: a pod with an unsupported network mode that requests
an infra container gets the namespace-option resolver's error, not the
unsupported-network-mode error, when that resolver fails. -/
theorem unsupported_mode_preempted :
    containerModePod.NoInfra = false ∧
    containerModePod.NetNS.NSMode ∉ [specgen.Default, "", specgen.Bridge, specgen.Host,
      specgen.Slirp, specgen.NoNetwork] ∧
    createPodOptions strictEnv containerModePod sampleRuntime
      = .error (GoError.Errorf "namespace sharing not supported on pod level") ∧
    createPodOptions strictEnv containerModePod sampleRuntime
      ≠ .error (unsupportedNetworkMode containerModePod.NetNS.NSMode) := by
  refine ⟨rfl, by decide, rfl, ?_⟩
  have h : createPodOptions strictEnv containerModePod sampleRuntime
      = .error (GoError.Errorf "namespace sharing not supported on pod level") := rfl
  rw [h]
  intro hh
  have hne : GoError.Errorf "namespace sharing not supported on pod level"
      ≠ unsupportedNetworkMode containerModePod.NetNS.NSMode := by decide
  exact hne (Except.error.inj hh)

/-- C2, amended. For every input whose network mode is not one of Default, the
empty string, Bridge, Host, Slirp4netns or NoNetwork, and for which either no
infra container is requested or the delegates of the infra block succeed,
`createPodOptions` fails with the unsupported-network-mode error, whose message
ends with the offending mode value; port mappings play no role. -/
theorem unsupported_mode_error (env : Env) (p : PodSpecGenerator) (rt : Runtime)
    (hmode : p.NetNS.NSMode ∉ [specgen.Default, "", specgen.Bridge, specgen.Host,
      specgen.Slirp, specgen.NoNetwork])
    (hinfra : InfraDelegatesSucceed env p rt) :
    createPodOptions env p rt = .error
      (GoError.Errorf ("pods presently do not support network mode " ++ p.NetNS.NSMode)) := by
  obtain ⟨infra, hi⟩ := infraOptions_succeeds env p rt hinfra
  rw [createPodOptions_eq, netOptions_nil, hi,
    resolveNetworkMode_unsupported _ _ _ _ hmode]
  rfl

/-- The amended C2 at a pod that requests an infra container and carries port
mappings, all delegates succeeding. -/
theorem unsupported_mode_error_witness :
    containerModePod.NetNS.NSMode ∉ [specgen.Default, "", specgen.Bridge, specgen.Host,
      specgen.Slirp, specgen.NoNetwork] ∧
    InfraDelegatesSucceed sampleEnv containerModePod sampleRuntime ∧
    createPodOptions sampleEnv containerModePod sampleRuntime = .error
      (GoError.Errorf ("pods presently do not support network mode "
        ++ containerModePod.NetNS.NSMode)) :=
  have hd : InfraDelegatesSucceed sampleEnv containerModePod sampleRuntime :=
    fun _ => ⟨_, _, _, rfl, rfl, rfl⟩
  ⟨by decide, hd,
    unsupported_mode_error sampleEnv containerModePod sampleRuntime (by decide) hd⟩

/-! ## C3: host networking -/

/-- C3. For every pod specification with network mode Host, the sequence
returned by `createPodOptions` contains exactly one host-networking directive
and no user-space-networking directive, whatever the privilege level and
whether or not an infra container is requested (the namespace-option resolver
being one that returns no network-mode directive). -/
theorem host_mode_directives (env : Env) (p : PodSpecGenerator) (rt : Runtime)
    (opts : List PodCreateOption)
    (hmode : p.NetNS.NSMode = specgen.Host)
    (hns : NamespaceOptionsAvoid env p PodCreateOption.isNetworkMode)
    (h : createPodOptions env p rt = .ok opts) :
    opts.countP PodCreateOption.isHostNetwork = 1 ∧
    opts.countP PodCreateOption.isSlirp4netns = 0 := by
  obtain ⟨net, hn, hf⟩ := createPodOptions_filter_networkMode env p rt opts h hns
  have hnet : net = some PodCreateOption.WithPodHostNetwork := by
    rw [hmode] at hn
    simp [resolveNetworkMode, specgen.Host, specgen.Default, specgen.Bridge] at hn
    exact hn.symm
  rw [countP_networkMode_sub PodCreateOption.isHostNetwork
      (fun o ho => by simp [PodCreateOption.isNetworkMode, ho]),
    countP_networkMode_sub PodCreateOption.isSlirp4netns
      (fun o ho => by simp [PodCreateOption.isNetworkMode, ho]), hf, hnet]
  exact ⟨rfl, rfl⟩

/-- C3 at a rootless pod with an infra container and mode Host. -/
theorem host_mode_directives_witness :
    hostPod.NetNS.NSMode = specgen.Host ∧
    NamespaceOptionsAvoid sampleEnv hostPod PodCreateOption.isNetworkMode ∧
    ∃ opts, createPodOptions sampleEnv hostPod sampleRuntime = .ok opts ∧
      opts.countP PodCreateOption.isHostNetwork = 1 ∧
      opts.countP PodCreateOption.isSlirp4netns = 0 :=
  ⟨rfl, sampleEnv_avoid hostPod _ (fun _ => rfl), _, rfl,
    host_mode_directives sampleEnv hostPod sampleRuntime _ rfl
      (sampleEnv_avoid hostPod _ (fun _ => rfl)) rfl⟩

/-! ## C4: no infra container and mode Default -/

/-- C4, as stated, fails: without infra container and with mode Default, a pod
that names a user-defined network still gets the user-defined-networks
directive, which is a networking directive. -/
theorem noInfra_default_emits_networks :
    cniPod.NoInfra = true ∧ cniPod.NetNS.NSMode = specgen.Default ∧
    createPodOptions sampleEnv cniPod sampleRuntime
      = .ok [PodCreateOption.WithPodNetworks ["backend"], PodCreateOption.WithPodCgroups] ∧
    (PodCreateOption.WithPodNetworks ["backend"]).isNetworking = true :=
  ⟨rfl, rfl, rfl, rfl⟩

/-- C4, amended. For every input with `NoInfra = true` and network mode Default
(or unset), the sequence returned by `createPodOptions` contains no directive
of the network mode switch (host-networking, user-space-networking,
disable-networking) and no infra-enable directive, for every privilege level
and every value of the other fields; the user-defined-networks directive is
the only networking directive that can occur, and it occurs exactly when
`CNINetworks` is non-empty. -/
theorem noInfra_default_directives (env : Env) (p : PodSpecGenerator) (rt : Runtime)
    (opts : List PodCreateOption)
    (hI : p.NoInfra = true)
    (hmode : p.NetNS.NSMode = specgen.Default ∨ p.NetNS.NSMode = "")
    (h : createPodOptions env p rt = .ok opts) :
    (∀ o ∈ opts, o.isNetworkMode = false ∧ o.isInfraContainer = false) ∧
    opts.filter PodCreateOption.isNetworking
      = guarded (p.CNINetworks ≠ []) (PodCreateOption.WithPodNetworks p.CNINetworks) := by
  have hres := resolveNetworkMode_default_noInfra p.NetNS.NSMode env.IsRootless
    p.NetworkOptions hmode
  constructor
  · intro o ho
    rcases mem_createPodOptions env p rt opts h o ho with
      ⟨hf, _⟩ | ho | ho | ⟨_, rfl⟩ | ⟨_, parsed, rfl⟩ | ho
    · rw [hI] at hf; cases hf
    · simp only [fieldDirectives, List.mem_append, mem_guarded, mem_whenSet] at ho
      casesm* _ ∨ _, _ ∧ _, ∃ _, _ <;> subst_vars <;> exact ⟨rfl, rfl⟩
    · rw [hI, hres] at ho; cases ho
    · exact ⟨rfl, rfl⟩
    · exact ⟨rfl, rfl⟩
    · simp only [tailDirectives, List.mem_append, List.mem_singleton, mem_guarded,
        mem_whenSet] at ho
      casesm* _ ∨ _, _ ∧ _, ∃ _, _ <;> subst_vars <;> exact ⟨rfl, rfl⟩
  · obtain ⟨infra, net, ports, hi, hn, hp, rfl⟩ := createPodOptions_ok env p rt opts h
    rw [infraOptions_noInfra env p rt hI] at hi
    rw [hI, hres] at hn
    cases hi
    cases hn
    have hports : ports.filter PodCreateOption.isNetworking = [] := by
      apply filter_eq_nil_of_forall
      rcases portOptions_ok env p ports hp with ⟨_, rfl⟩ | ⟨_, parsed, _, rfl⟩
      · simp
      · intro o ho
        simp only [List.mem_singleton] at ho
        subst ho
        rfl
    have htail : (tailDirectives p).filter PodCreateOption.isNetworking = [] := by
      apply filter_eq_nil_of_forall
      intro o ho
      simp only [tailDirectives, List.mem_append, List.mem_singleton, mem_guarded,
        mem_whenSet] at ho
      casesm* _ ∨ _, _ ∧ _, ∃ _, _ <;> subst_vars <;> rfl
    have hhosts : (guarded p.NoManageHosts PodCreateOption.WithPodUseImageHosts).filter
        PodCreateOption.isNetworking = [] := by
      apply filter_eq_nil_of_forall
      intro o ho
      rw [mem_guarded] at ho
      rw [ho.2]
      rfl
    have hfield : (fieldDirectives env p).filter PodCreateOption.isNetworking
        = guarded (p.CNINetworks ≠ []) (PodCreateOption.WithPodNetworks p.CNINetworks) := by
      simp only [fieldDirectives, List.filter_append, list_length_pos, filter_guarded,
        filter_whenSet_of_false PodCreateOption.isNetworking p.StaticIP
          PodCreateOption.WithPodStaticIP (fun _ => rfl),
        filter_whenSet_of_false PodCreateOption.isNetworking p.StaticMAC
          PodCreateOption.WithPodStaticMAC (fun _ => rfl)]
      simp [PodCreateOption.isNetworking, PodCreateOption.isNetworkMode,
        PodCreateOption.isHostNetwork, PodCreateOption.isSlirp4netns,
        PodCreateOption.isNoNetwork, PodCreateOption.isPodNetworks]
    simp only [List.filter_append, hports, htail, hhosts, hfield, Option.toList,
      List.filter_nil, List.nil_append, List.append_nil]

/-- The amended C4 at a pod without infra container that names a user-defined
network. -/
theorem noInfra_default_directives_witness :
    cniPod.NoInfra = true ∧
    (cniPod.NetNS.NSMode = specgen.Default ∨ cniPod.NetNS.NSMode = "") ∧
    ∃ opts, createPodOptions rootEnv cniPod sampleRuntime = .ok opts ∧
      (∀ o ∈ opts, o.isNetworkMode = false ∧ o.isInfraContainer = false) ∧
      opts.filter PodCreateOption.isNetworking
        = guarded (cniPod.CNINetworks ≠ []) (PodCreateOption.WithPodNetworks cniPod.CNINetworks) :=
  ⟨rfl, Or.inl rfl,
    [PodCreateOption.WithPodNetworks ["backend"], PodCreateOption.WithPodCgroups], rfl,
    noInfra_default_directives rootEnv cniPod sampleRuntime
      [PodCreateOption.WithPodNetworks ["backend"], PodCreateOption.WithPodCgroups]
      rfl (Or.inl rfl) rfl⟩

/-! ## C5: explicit slirp4netns selection -/

/-- C5. For every pod specification with network mode Slirp4netns, a successful
`createPodOptions` emits exactly one user-space-networking directive, carrying
the pod's network options, whether the process is privileged or rootless and
with or without an infra container (the namespace-option resolver being one
that returns no network-mode directive). -/
theorem slirp_mode_directive (env : Env) (p : PodSpecGenerator) (rt : Runtime)
    (opts : List PodCreateOption)
    (hmode : p.NetNS.NSMode = specgen.Slirp)
    (hns : NamespaceOptionsAvoid env p PodCreateOption.isNetworkMode)
    (h : createPodOptions env p rt = .ok opts) :
    opts.countP PodCreateOption.isSlirp4netns = 1 ∧
    opts.filter PodCreateOption.isNetworkMode
      = [PodCreateOption.WithPodSlirp4netns p.NetworkOptions] := by
  obtain ⟨net, hn, hf⟩ := createPodOptions_filter_networkMode env p rt opts h hns
  have hnet : net = some (PodCreateOption.WithPodSlirp4netns p.NetworkOptions) := by
    rw [hmode] at hn
    simp [resolveNetworkMode, specgen.Slirp, specgen.Host, specgen.Default,
      specgen.Bridge] at hn
    exact hn.symm
  rw [countP_networkMode_sub PodCreateOption.isSlirp4netns
      (fun o ho => by simp [PodCreateOption.isNetworkMode, ho]), hf, hnet]
  exact ⟨rfl, rfl⟩

/-- C5 at a privileged process with an infra container, and at a rootless one
without. -/
theorem slirp_mode_directive_witness :
    (slirpPod.NetNS.NSMode = specgen.Slirp ∧ rootEnv.IsRootless = false ∧
      slirpPod.NoInfra = false ∧
      NamespaceOptionsAvoid rootEnv slirpPod PodCreateOption.isNetworkMode ∧
      ∃ opts, createPodOptions rootEnv slirpPod sampleRuntime = .ok opts ∧
        opts.countP PodCreateOption.isSlirp4netns = 1 ∧
        opts.filter PodCreateOption.isNetworkMode
          = [PodCreateOption.WithPodSlirp4netns slirpPod.NetworkOptions]) ∧
    (∃ opts, createPodOptions sampleEnv { slirpPod with NoInfra := true } sampleRuntime
        = .ok opts ∧
      opts.countP PodCreateOption.isSlirp4netns = 1) :=
  ⟨⟨rfl, rfl, rfl, rootEnv_avoid slirpPod _ (fun _ => rfl), _, rfl,
      slirp_mode_directive rootEnv slirpPod sampleRuntime _ rfl
        (rootEnv_avoid slirpPod _ (fun _ => rfl)) rfl⟩,
    _, rfl,
    (slirp_mode_directive sampleEnv { slirpPod with NoInfra := true } sampleRuntime _ rfl
      (sampleEnv_avoid _ _ (fun _ => rfl)) rfl).1⟩

/-! ## C6: the rootless default pod -/

/-- C6. For every pod specification with `NoInfra = false` and network mode
Default run rootless, whenever `createPodOptions` succeeds the sequence
includes the infra-enable, exit-command, pod-cgroups and user-space-networking
directives, and its only network-mode directive is the user-space one, so it
contains no host-networking directive (the namespace-option resolver being one
that returns no network-mode directive). -/
theorem rootless_default_directives (env : Env) (p : PodSpecGenerator) (rt : Runtime)
    (opts : List PodCreateOption)
    (hI : p.NoInfra = false)
    (hmode : p.NetNS.NSMode = specgen.Default ∨ p.NetNS.NSMode = "")
    (hr : env.IsRootless = true)
    (hns : NamespaceOptionsAvoid env p PodCreateOption.isNetworkMode)
    (h : createPodOptions env p rt = .ok opts) :
    PodCreateOption.WithInfraContainer ∈ opts ∧
    (∃ cfg ec, rt.GetConfig = .ok cfg ∧
      env.CreateExitCommandArgs rt.StorageConfig cfg env.IsDebugLevelEnabled false false
        = .ok ec ∧
      PodCreateOption.WithPodInfraExitCommand ec ∈ opts) ∧
    PodCreateOption.WithPodCgroups ∈ opts ∧
    PodCreateOption.WithPodSlirp4netns p.NetworkOptions ∈ opts ∧
    opts.filter PodCreateOption.isNetworkMode
      = [PodCreateOption.WithPodSlirp4netns p.NetworkOptions] ∧
    ∀ o ∈ opts, o.isHostNetwork = false := by
  obtain ⟨net', hn', hf⟩ := createPodOptions_filter_networkMode env p rt opts h hns
  obtain ⟨infra, net, ports, hi, hn, hp, hopts⟩ := createPodOptions_ok env p rt opts h
  have hnet : net = some (PodCreateOption.WithPodSlirp4netns p.NetworkOptions) := by
    have : resolveNetworkMode p.NetNS.NSMode p.NoInfra env.IsRootless p.NetworkOptions
        = .ok (some (PodCreateOption.WithPodSlirp4netns p.NetworkOptions)) := by
      simp [resolveNetworkMode, hmode, hI, hr]
    rw [this] at hn
    exact (Except.ok.inj hn).symm
  have hnet' : net' = net := Except.ok.inj (hn'.symm.trans hn)
  rw [hnet', hnet] at hf
  rcases infraOptions_ok env p rt infra hi with ⟨hI', _⟩ | ⟨_, ns, cfg, ec, _, hcfg, hec, rfl⟩
  · rw [hI] at hI'; cases hI'
  · refine ⟨?_, ⟨cfg, ec, hcfg, hec, ?_⟩, ?_, ?_, hf, ?_⟩
    · rw [hopts]; simp
    · rw [hopts]; simp
    · rw [hopts]; simp [tailDirectives]
    · rw [hopts, hnet]; simp
    · intro o ho
      cases hh : o.isHostNetwork with
      | false => rfl
      | true =>
        have hmem : o ∈ opts.filter PodCreateOption.isNetworkMode := by
          rw [List.mem_filter]
          exact ⟨ho, by simp [PodCreateOption.isNetworkMode, hh]⟩
        rw [hf] at hmem
        simp only [Option.toList, List.mem_singleton] at hmem
        rw [hmem] at hh
        cases hh

/-- C6 at the rootless pod named "web". -/
theorem rootless_default_directives_witness :
    webPod.Name = "web" ∧ webPod.NoInfra = false ∧
    (webPod.NetNS.NSMode = specgen.Default ∨ webPod.NetNS.NSMode = "") ∧
    sampleEnv.IsRootless = true ∧
    NamespaceOptionsAvoid sampleEnv webPod PodCreateOption.isNetworkMode ∧
    ∃ opts, createPodOptions sampleEnv webPod sampleRuntime = .ok opts ∧
      PodCreateOption.WithInfraContainer ∈ opts ∧
      (∃ cfg ec, sampleRuntime.GetConfig = .ok cfg ∧
        sampleEnv.CreateExitCommandArgs sampleRuntime.StorageConfig cfg
          sampleEnv.IsDebugLevelEnabled false false = .ok ec ∧
        PodCreateOption.WithPodInfraExitCommand ec ∈ opts) ∧
      PodCreateOption.WithPodCgroups ∈ opts ∧
      PodCreateOption.WithPodSlirp4netns webPod.NetworkOptions ∈ opts ∧
      opts.filter PodCreateOption.isNetworkMode
        = [PodCreateOption.WithPodSlirp4netns webPod.NetworkOptions] ∧
      ∀ o ∈ opts, o.isHostNetwork = false :=
  ⟨rfl, rfl, Or.inl rfl, rfl, sampleEnv_avoid webPod _ (fun _ => rfl), _, rfl,
    rootless_default_directives sampleEnv webPod sampleRuntime _ rfl (Or.inl rfl) rfl
      (sampleEnv_avoid webPod _ (fun _ => rfl)) rfl⟩

/-! ## C7: at most one network-mode directive -/

/-- C7. For every input on which `createPodOptions` succeeds, the output
contains at most one directive among host-networking, user-space-networking
and disable-networking; and it contains none of them when the mode is Bridge,
or when the mode is Default (or unset) with an infra container and the process
is privileged (the namespace-option resolver being one that returns no
network-mode directive). -/
theorem at_most_one_networkMode_directive (env : Env) (p : PodSpecGenerator) (rt : Runtime)
    (opts : List PodCreateOption)
    (hns : NamespaceOptionsAvoid env p PodCreateOption.isNetworkMode)
    (h : createPodOptions env p rt = .ok opts) :
    opts.countP PodCreateOption.isNetworkMode ≤ 1 ∧
    (p.NetNS.NSMode = specgen.Bridge ∨
      ((p.NetNS.NSMode = specgen.Default ∨ p.NetNS.NSMode = "") ∧ p.NoInfra = false ∧
        env.IsRootless = false) →
      opts.countP PodCreateOption.isNetworkMode = 0) := by
  obtain ⟨net, hn, hf⟩ := createPodOptions_filter_networkMode env p rt opts h hns
  rw [List.countP_eq_length_filter, hf]
  constructor
  · cases net <;> simp [Option.toList]
  · intro hcase
    have hnone : net = none := by
      rcases hcase with hb | ⟨hd, hI, hr⟩
      · rw [hb] at hn
        simp [resolveNetworkMode, specgen.Bridge, specgen.Default] at hn
        exact hn.symm
      · simp [resolveNetworkMode, hd, hI, hr] at hn
        exact hn.symm
    rw [hnone]
    rfl

/-- C7 at a privileged process, for the pod named "web" (mode Default, infra
container requested). -/
theorem at_most_one_networkMode_directive_witness :
    NamespaceOptionsAvoid rootEnv webPod PodCreateOption.isNetworkMode ∧
    (webPod.NetNS.NSMode = specgen.Bridge ∨
      ((webPod.NetNS.NSMode = specgen.Default ∨ webPod.NetNS.NSMode = "") ∧
        webPod.NoInfra = false ∧ rootEnv.IsRootless = false)) ∧
    ∃ opts, createPodOptions rootEnv webPod sampleRuntime = .ok opts ∧
      opts.countP PodCreateOption.isNetworkMode ≤ 1 ∧
      opts.countP PodCreateOption.isNetworkMode = 0 :=
  have hw := at_most_one_networkMode_directive rootEnv webPod sampleRuntime _
    (rootEnv_avoid webPod _ (fun _ => rfl)) rfl
  ⟨rootEnv_avoid webPod _ (fun _ => rfl), Or.inr ⟨Or.inl rfl, rfl, rfl⟩, _, rfl, hw.1,
    hw.2 (Or.inr ⟨Or.inl rfl, rfl, rfl⟩)⟩

/-! ## C8: absent DNS and static address fields -/

/-- C8. For every input whose DNS servers, DNS options and DNS search lists are
all empty and whose static IP and static MAC are both absent, the sequence
returned by `createPodOptions` contains no DNS-servers, DNS-options,
DNS-search, static-IP or static-MAC directive (the namespace-option resolver
being one that returns none of these). -/
theorem no_dns_or_static_directives (env : Env) (p : PodSpecGenerator) (rt : Runtime)
    (opts : List PodCreateOption)
    (hdns : p.DNSServer = []) (hopt : p.DNSOption = []) (hsearch : p.DNSSearch = [])
    (hip : p.StaticIP = none) (hmac : p.StaticMAC = none)
    (hns : NamespaceOptionsAvoid env p PodCreateOption.isDNSOrStatic)
    (h : createPodOptions env p rt = .ok opts) :
    ∀ o ∈ opts, o.isDNSOrStatic = false := by
  intro o ho
  rcases mem_createPodOptions env p rt opts h o ho with
    ⟨_, rfl | ⟨ns, hns', ho⟩ | ⟨ec, rfl⟩⟩ | ho | ho | ⟨_, rfl⟩ | ⟨_, parsed, rfl⟩ | ho
  · rfl
  · exact hns ns hns' o ho
  · rfl
  · simp only [fieldDirectives, hdns, hopt, hsearch, hip, hmac, List.mem_append, mem_guarded,
      mem_whenSet, List.length_nil, gt_iff_lt, Nat.lt_irrefl, decide_False] at ho
    casesm* _ ∨ _, _ ∧ _, ∃ _, _ <;> first | rfl | contradiction | (subst_vars; rfl)
  · rcases resolveNetworkMode_cases _ _ _ _ o ho with rfl | rfl | rfl <;> rfl
  · rfl
  · rfl
  · simp only [tailDirectives, List.mem_append, List.mem_singleton, mem_guarded,
      mem_whenSet] at ho
    casesm* _ ∨ _, _ ∧ _, ∃ _, _ <;> subst_vars <;> rfl

/-- C8 at the pod named "web", which sets no DNS or static address field. -/
theorem no_dns_or_static_directives_witness :
    webPod.DNSServer = [] ∧ webPod.DNSOption = [] ∧ webPod.DNSSearch = [] ∧
    webPod.StaticIP = none ∧ webPod.StaticMAC = none ∧
    NamespaceOptionsAvoid sampleEnv webPod PodCreateOption.isDNSOrStatic ∧
    ∃ opts, createPodOptions sampleEnv webPod sampleRuntime = .ok opts ∧
      ∀ o ∈ opts, o.isDNSOrStatic = false :=
  ⟨rfl, rfl, rfl, rfl, rfl, sampleEnv_avoid webPod _ (fun _ => rfl), _, rfl,
    no_dns_or_static_directives sampleEnv webPod sampleRuntime _ rfl rfl rfl rfl rfl
      (sampleEnv_avoid webPod _ (fun _ => rfl)) rfl⟩

/-! ## C9: port-mapping parse failures -/

/-- C9. For every input with non-empty port mappings, a recognized network
mode, and successful earlier delegates (namespace options, runtime config,
exit command), if the port-mapping parser fails with error `e` then
`createPodOptions` returns exactly `e`, unchanged and unwrapped, and no
directive sequence. -/
theorem port_parse_error_unchanged (env : Env) (p : PodSpecGenerator) (rt : Runtime)
    (e : GoError)
    (hports : p.PortMappings ≠ [])
    (hmode : p.NetNS.NSMode ∈ [specgen.Default, "", specgen.Bridge, specgen.Host,
      specgen.Slirp, specgen.NoNetwork])
    (hinfra : InfraDelegatesSucceed env p rt)
    (hparse : env.ParsePortMapping p.PortMappings = .error e) :
    createPodOptions env p rt = .error e :=
  createPodOptions_port_error env p rt e hports hmode hinfra hparse

/-- C9 at the pod named "web" carrying a malformed port mapping. -/
theorem port_parse_error_unchanged_witness :
    webPortPod.PortMappings ≠ [] ∧
    webPortPod.NetNS.NSMode ∈ [specgen.Default, "", specgen.Bridge, specgen.Host,
      specgen.Slirp, specgen.NoNetwork] ∧
    InfraDelegatesSucceed rejectingEnv webPortPod sampleRuntime ∧
    rejectingEnv.ParsePortMapping webPortPod.PortMappings
      = .error (GoError.Errorf "invalid port mapping") ∧
    createPodOptions rejectingEnv webPortPod sampleRuntime
      = .error (GoError.Errorf "invalid port mapping") :=
  have hd : InfraDelegatesSucceed rejectingEnv webPortPod sampleRuntime :=
    fun _ => ⟨_, _, _, rfl, rfl, rfl⟩
  ⟨by decide, by decide, hd, rfl,
    port_parse_error_unchanged rejectingEnv webPortPod sampleRuntime _ (by decide) (by decide)
      hd rfl⟩

/-! ## C10: which delegate failures are wrapped -/

/-- C10, as stated, fails: the error of the port-mapping parser and the error
of the namespace-option resolver are returned bare, not wrapped. -/
theorem delegate_error_returned_bare :
    (rejectingEnv.ParsePortMapping malformedPortPod.PortMappings
        = .error (GoError.Errorf "invalid port mapping") ∧
      createPodOptions rejectingEnv malformedPortPod sampleRuntime
        = .error (GoError.Errorf "invalid port mapping")) ∧
    (strictEnv.GetNamespaceOptions mountSharingPod.SharedNamespaces
        = .error (GoError.Errorf "namespace sharing not supported on pod level") ∧
      createPodOptions strictEnv mountSharingPod sampleRuntime
        = .error (GoError.Errorf "namespace sharing not supported on pod level")) :=
  ⟨⟨rfl, rfl⟩, ⟨rfl, rfl⟩⟩

/-- C10, amended. Of the delegate failures inside `createPodOptions`, only a
failure of the exit-command synthesis is returned wrapped, with the message
"error creating infra container exit command" and the original cause
preserved; a failure of the namespace-option resolution or of the port-mapping
parsing is returned as the delegate's bare error. -/
theorem delegate_failure_errors (env : Env) (p : PodSpecGenerator) (rt : Runtime) :
    (∀ e, p.NoInfra = false →
      env.GetNamespaceOptions p.SharedNamespaces = .error e →
      createPodOptions env p rt = .error e) ∧
    (∀ ns cfg e, p.NoInfra = false →
      env.GetNamespaceOptions p.SharedNamespaces = .ok ns →
      rt.GetConfig = .ok cfg →
      env.CreateExitCommandArgs rt.StorageConfig cfg env.IsDebugLevelEnabled false false
        = .error e →
      createPodOptions env p rt
        = .error (GoError.Wrapf e "error creating infra container exit command")) ∧
    (∀ e, InfraDelegatesSucceed env p rt →
      p.NetNS.NSMode ∈ [specgen.Default, "", specgen.Bridge, specgen.Host, specgen.Slirp,
        specgen.NoNetwork] →
      p.PortMappings ≠ [] →
      env.ParsePortMapping p.PortMappings = .error e →
      createPodOptions env p rt = .error e) :=
  ⟨fun e hI hns => createPodOptions_namespace_error env p rt e hI hns,
    fun ns cfg e hI hns hcfg hec =>
      createPodOptions_exitCommand_error env p rt ns cfg e hI hns hcfg hec,
    fun e hinfra hmode hports hparse =>
      createPodOptions_port_error env p rt e hports hmode hinfra hparse⟩

/-- The amended C10 at one failing delegate each: the namespace-option
resolver, the exit-command synthesizer, the port-mapping parser. -/
theorem delegate_failure_errors_witness :
    createPodOptions strictEnv mountSharingPod sampleRuntime
      = .error (GoError.Errorf "namespace sharing not supported on pod level") ∧
    createPodOptions noExitCommandEnv webPod sampleRuntime
      = .error (GoError.Wrapf (GoError.Errorf "no executable path")
          "error creating infra container exit command") ∧
    createPodOptions rejectingEnv malformedPortPod sampleRuntime
      = .error (GoError.Errorf "invalid port mapping") :=
  ⟨(delegate_failure_errors strictEnv mountSharingPod sampleRuntime).1 _ rfl rfl,
    (delegate_failure_errors noExitCommandEnv webPod sampleRuntime).2.1
      (webPod.SharedNamespaces.map PodCreateOption.Other) ⟨"runc"⟩ _ rfl rfl rfl rfl,
    (delegate_failure_errors rejectingEnv malformedPortPod sampleRuntime).2.2 _
      (fun hf => by cases hf) (by decide) (by decide) rfl⟩

/-! ## C11: all or nothing -/

theorem infraReturns_eq (env : Env) (p : PodSpecGenerator) (rt : Runtime)
    (options : List PodCreateOption) :
    infraReturns env p rt options
      = (infraOptions env p rt options).mapError (fun err => ([], some err)) := by
  unfold infraReturns infraOptions
  cases p.NoInfra with
  | true => rfl
  | false =>
    simp only [Bool.not_false, if_true, bind, Except.bind]
    cases env.GetNamespaceOptions p.SharedNamespaces with
    | error e => rfl
    | ok ns =>
      simp only
      cases rt.GetConfig with
      | error e => rfl
      | ok cfg =>
        simp only
        cases env.CreateExitCommandArgs rt.StorageConfig cfg env.IsDebugLevelEnabled
            false false with
        | error e => rfl
        | ok ec => rfl

theorem netReturns_eq (env : Env) (p : PodSpecGenerator) (options : List PodCreateOption) :
    netReturns env p options
      = (netOptions env p options).mapError (fun err => ([], some err)) := by
  unfold netReturns netOptions
  repeat' split
  all_goals rfl

theorem portReturns_eq (env : Env) (p : PodSpecGenerator) (options : List PodCreateOption) :
    portReturns env p options
      = (portOptions env p options).mapError (fun err => ([], some err)) := by
  unfold portReturns portOptions
  split
  · simp only [bind, Except.bind]
    cases env.ParsePortMapping p.PortMappings <;> rfl
  · rfl

/-- The two renderings of `createPodOptions` agree. -/
theorem createPodOptionsReturns_eq (env : Env) (p : PodSpecGenerator) (rt : Runtime) :
    createPodOptionsReturns env p rt = toReturned (createPodOptions env p rt) := by
  unfold createPodOptionsReturns createPodOptions
  simp only [infraReturns_eq, netReturns_eq, portReturns_eq, bind, Except.bind]
  cases infraOptions env p rt [] with
  | error e => rfl
  | ok infra =>
    simp only [Except.mapError]
    split
    · rename_i r hr
      split at hr
      · cases hr; rfl
      · cases hr
    · rename_i o1 hr
      split at hr
      · cases hr
      · cases hr
        split
        · rename_i r hp
          split at hp
          · cases hp; rfl
          · cases hp
        · rename_i o2 hp
          split at hp
          · cases hp
          · cases hp
            rfl

/-- C11. `createPodOptions` is all-or-nothing: for every input its two Go
results are either a (non-empty) directive sequence with a nil error, or the
nil sequence with an error; no `return` on a failure path (namespace options,
runtime config, exit command, unsupported network mode, port parsing) hands
back the directives accumulated so far. -/
theorem createPodOptions_all_or_nothing (env : Env) (p : PodSpecGenerator) (rt : Runtime) :
    (∃ opts, createPodOptionsReturns env p rt = (opts, none) ∧ opts ≠ [] ∧
      createPodOptions env p rt = .ok opts) ∨
    (∃ err, createPodOptionsReturns env p rt = ([], some err) ∧
      createPodOptions env p rt = .error err) := by
  rw [createPodOptionsReturns_eq]
  cases h : createPodOptions env p rt with
  | error err => exact Or.inr ⟨err, rfl, rfl⟩
  | ok opts =>
    refine Or.inl ⟨opts, rfl, ?_, rfl⟩
    obtain ⟨infra, net, ports, _, _, _, rfl⟩ := createPodOptions_ok env p rt opts h
    simp [tailDirectives]

/-! ## C12: `MakePod` validates first -/

/-- C12. `MakePod` validates first: when `Validate` fails with `e`, `MakePod`
returns `e` and no pod, having called neither `createPodOptions` nor the pod
constructor; when `createPodOptions` fails, `MakePod` returns that error and
has not called the constructor; the constructor is called exactly when both
succeed, with the built sequence unchanged, and its result is returned. -/
theorem MakePod_validates_first (m : PodMethods) (env : Env) (p : PodSpecGenerator)
    (rt : Runtime) :
    (∀ e, m.Validate p = some e → MakePod m env p rt = (.error e, [Call.Validate])) ∧
    (∀ e, m.Validate p = none → createPodOptions env p rt = .error e →
      MakePod m env p rt = (.error e, [Call.Validate, Call.createPodOptions])) ∧
    (∀ opts, m.Validate p = none → createPodOptions env p rt = .ok opts →
      MakePod m env p rt
        = (m.NewPod opts, [Call.Validate, Call.createPodOptions, Call.NewPod opts])) ∧
    ((∃ o, Call.NewPod o ∈ (MakePod m env p rt).2) ↔
      m.Validate p = none ∧ ∃ opts, createPodOptions env p rt = .ok opts) := by
  refine ⟨?_, ?_, ?_, ?_⟩
  · intro e hv
    simp [MakePod, hv]
  · intro e hv hc
    simp [MakePod, hv, hc]
  · intro opts hv hc
    simp [MakePod, hv, hc]
  · cases hv : m.Validate p with
    | some e => simp [MakePod, hv]
    | none =>
      cases hc : createPodOptions env p rt with
      | error e => simp [MakePod, hv, hc]
      | ok opts => simp [MakePod, hv, hc]

/-- C12 at a pod that fails validation, at a valid pod whose options cannot be
built, and at a valid pod that is constructed. -/
theorem MakePod_validates_first_witness :
    MakePod sampleMethods sampleEnv invalidPod sampleRuntime
      = (.error (GoError.Errorf "cannot set infra-image without an infra container"),
         [Call.Validate]) ∧
    MakePod sampleMethods rejectingEnv malformedPortPod sampleRuntime
      = (.error (GoError.Errorf "invalid port mapping"),
         [Call.Validate, Call.createPodOptions]) ∧
    MakePod sampleMethods sampleEnv cniPod sampleRuntime
      = (.ok ⟨"pod-2"⟩,
         [Call.Validate, Call.createPodOptions,
          Call.NewPod [PodCreateOption.WithPodNetworks ["backend"],
            PodCreateOption.WithPodCgroups]]) :=
  ⟨(MakePod_validates_first sampleMethods sampleEnv invalidPod sampleRuntime).1 _ rfl,
    (MakePod_validates_first sampleMethods rejectingEnv malformedPortPod sampleRuntime).2.1 _
      rfl rfl,
    (MakePod_validates_first sampleMethods sampleEnv cniPod sampleRuntime).2.2.1 _ rfl rfl⟩

/-! ## C13: what the networking directive depends on -/

theorem resolveNetworkMode_kind (mode : NamespaceMode) (noInfra unprivileged : Bool)
    (no1 no2 : List (String × List String)) (net1 net2 : Option PodCreateOption)
    (h1 : resolveNetworkMode mode noInfra unprivileged no1 = .ok net1)
    (h2 : resolveNetworkMode mode noInfra unprivileged no2 = .ok net2) :
    net1.toList.countP PodCreateOption.isHostNetwork
      = net2.toList.countP PodCreateOption.isHostNetwork ∧
    net1.toList.countP PodCreateOption.isSlirp4netns
      = net2.toList.countP PodCreateOption.isSlirp4netns ∧
    net1.toList.countP PodCreateOption.isNoNetwork
      = net2.toList.countP PodCreateOption.isNoNetwork := by
  unfold resolveNetworkMode at h1 h2
  repeat' split at h1
  all_goals simp_all
  all_goals subst_vars
  all_goals simp [Option.toList, PodCreateOption.isHostNetwork, PodCreateOption.isSlirp4netns,
    PodCreateOption.isNoNetwork]

/-- C13, as stated, fails: two pods with the same network mode and `NoInfra`,
run by the same rootless process, get different user-space-networking
directives when their `NetworkOptions` differ. -/
theorem networking_directive_payload_differs :
    slirpPod.NetNS.NSMode = plainSlirpPod.NetNS.NSMode ∧
    slirpPod.NoInfra = plainSlirpPod.NoInfra ∧
    ∃ opts1 opts2,
      createPodOptions sampleEnv slirpPod sampleRuntime = .ok opts1 ∧
      createPodOptions sampleEnv plainSlirpPod sampleRuntime = .ok opts2 ∧
      opts1.filter PodCreateOption.isNetworkMode
        = [PodCreateOption.WithPodSlirp4netns [("mtu", ["1400"])]] ∧
      opts2.filter PodCreateOption.isNetworkMode = [PodCreateOption.WithPodSlirp4netns []] ∧
      opts1.filter PodCreateOption.isNetworkMode ≠ opts2.filter PodCreateOption.isNetworkMode :=
  ⟨rfl, rfl, _, _, rfl, rfl, rfl, rfl, by decide⟩

/-- C13, amended. The networking directive emitted by `createPodOptions` is a
function of the network mode, `NoInfra`, privileged/rootless and
`NetworkOptions`: two inputs that agree on the first three emit the same kind
of networking directive (host, user-space, disabled, or none), and the same
directive, payload included, when they also agree on `NetworkOptions`, which is
the payload of the user-space-networking directive; no other field of the
specification matters (the namespace-option resolver being one that returns no
network-mode directive). -/
theorem networking_directive_determined (env₁ env₂ : Env) (p₁ p₂ : PodSpecGenerator)
    (rt₁ rt₂ : Runtime) (opts₁ opts₂ : List PodCreateOption)
    (hmode : p₁.NetNS.NSMode = p₂.NetNS.NSMode)
    (hI : p₁.NoInfra = p₂.NoInfra)
    (hr : env₁.IsRootless = env₂.IsRootless)
    (hns₁ : NamespaceOptionsAvoid env₁ p₁ PodCreateOption.isNetworkMode)
    (hns₂ : NamespaceOptionsAvoid env₂ p₂ PodCreateOption.isNetworkMode)
    (h₁ : createPodOptions env₁ p₁ rt₁ = .ok opts₁)
    (h₂ : createPodOptions env₂ p₂ rt₂ = .ok opts₂) :
    (p₁.NetworkOptions = p₂.NetworkOptions →
      opts₁.filter PodCreateOption.isNetworkMode = opts₂.filter PodCreateOption.isNetworkMode) ∧
    opts₁.countP PodCreateOption.isHostNetwork = opts₂.countP PodCreateOption.isHostNetwork ∧
    opts₁.countP PodCreateOption.isSlirp4netns = opts₂.countP PodCreateOption.isSlirp4netns ∧
    opts₁.countP PodCreateOption.isNoNetwork = opts₂.countP PodCreateOption.isNoNetwork := by
  obtain ⟨net₁, hn₁, hf₁⟩ := createPodOptions_filter_networkMode env₁ p₁ rt₁ opts₁ h₁ hns₁
  obtain ⟨net₂, hn₂, hf₂⟩ := createPodOptions_filter_networkMode env₂ p₂ rt₂ opts₂ h₂ hns₂
  rw [hmode, hI, hr] at hn₁
  constructor
  · intro hno
    rw [hno, hn₂] at hn₁
    rw [hf₁, hf₂, Except.ok.inj hn₁]
  · have hk := resolveNetworkMode_kind _ _ _ _ _ _ _ hn₁ hn₂
    rw [countP_networkMode_sub PodCreateOption.isHostNetwork
        (fun o ho => by simp [PodCreateOption.isNetworkMode, ho]) opts₁,
      countP_networkMode_sub PodCreateOption.isHostNetwork
        (fun o ho => by simp [PodCreateOption.isNetworkMode, ho]) opts₂,
      countP_networkMode_sub PodCreateOption.isSlirp4netns
        (fun o ho => by simp [PodCreateOption.isNetworkMode, ho]) opts₁,
      countP_networkMode_sub PodCreateOption.isSlirp4netns
        (fun o ho => by simp [PodCreateOption.isNetworkMode, ho]) opts₂,
      countP_networkMode_sub PodCreateOption.isNoNetwork
        (fun o ho => by simp [PodCreateOption.isNetworkMode, ho]) opts₁,
      countP_networkMode_sub PodCreateOption.isNoNetwork
        (fun o ho => by simp [PodCreateOption.isNetworkMode, ho]) opts₂,
      hf₁, hf₂]
    exact hk

/-- The amended C13 at the two slirp pods, which differ in `NetworkOptions`
only, and at the slirp pod against one that differs in name and hostname
only. -/
theorem networking_directive_determined_witness :
    slirpPod.NetNS.NSMode = plainSlirpPod.NetNS.NSMode ∧
    slirpPod.NoInfra = plainSlirpPod.NoInfra ∧
    (∃ opts₁ opts₂,
      createPodOptions sampleEnv slirpPod sampleRuntime = .ok opts₁ ∧
      createPodOptions sampleEnv plainSlirpPod sampleRuntime = .ok opts₂ ∧
      opts₁.countP PodCreateOption.isSlirp4netns = opts₂.countP PodCreateOption.isSlirp4netns) ∧
    (∃ opts₁ opts₂,
      createPodOptions sampleEnv slirpPod sampleRuntime = .ok opts₁ ∧
      createPodOptions sampleEnv { slirpPod with Name := "db", Hostname := "db" } sampleRuntime
        = .ok opts₂ ∧
      opts₁.filter PodCreateOption.isNetworkMode
        = opts₂.filter PodCreateOption.isNetworkMode) :=
  ⟨rfl, rfl,
    ⟨_, _, rfl, rfl,
      (networking_directive_determined sampleEnv sampleEnv slirpPod plainSlirpPod sampleRuntime
        sampleRuntime _ _ rfl rfl rfl (sampleEnv_avoid _ _ (fun _ => rfl))
        (sampleEnv_avoid _ _ (fun _ => rfl)) rfl rfl).2.2.1⟩,
    ⟨_, _, rfl, rfl,
      (networking_directive_determined sampleEnv sampleEnv slirpPod
        { slirpPod with Name := "db", Hostname := "db" } sampleRuntime
        sampleRuntime _ _ rfl rfl rfl (sampleEnv_avoid _ _ (fun _ => rfl))
        (sampleEnv_avoid _ _ (fun _ => rfl)) rfl rfl).1 rfl⟩⟩

/-! ## C14: the pod-cgroups directive -/

/-- The directives a successful result holds before the pod-cgroups directive
that `createPodOptions` appends. -/
theorem createPodOptions_front (env : Env) (p : PodSpecGenerator) (rt : Runtime)
    (opts : List PodCreateOption) (h : createPodOptions env p rt = .ok opts) :
    ∃ infra net ports,
      infraOptions env p rt [] = .ok infra ∧
      resolveNetworkMode p.NetNS.NSMode p.NoInfra env.IsRootless p.NetworkOptions = .ok net ∧
      portOptions env p [] = .ok ports ∧
      opts = (infra ++ fieldDirectives env p ++ net.toList
          ++ guarded p.NoManageHosts PodCreateOption.WithPodUseImageHosts ++ ports)
        ++ [PodCreateOption.WithPodCgroups]
        ++ whenSet p.PodCreateCommand PodCreateOption.WithPodCreateCommand
        ++ guarded (p.InfraConmonPidFile ≠ "")
            (PodCreateOption.WithInfraConmonPidFile p.InfraConmonPidFile) := by
  obtain ⟨infra, net, ports, hi, hn, hp, rfl⟩ := createPodOptions_ok env p rt opts h
  refine ⟨infra, net, ports, hi, hn, hp, ?_⟩
  simp only [tailDirectives, string_length_pos, List.append_assoc]

/-- What a directive of the infra block is. -/
theorem mem_infraOptions (env : Env) (p : PodSpecGenerator) (rt : Runtime)
    (infra : List PodCreateOption) (hi : infraOptions env p rt [] = .ok infra)
    (o : PodCreateOption) (ho : o ∈ infra) :
    o = PodCreateOption.WithInfraContainer ∨
    (∃ ns, env.GetNamespaceOptions p.SharedNamespaces = .ok ns ∧ o ∈ ns) ∨
    ∃ ec, o = PodCreateOption.WithPodInfraExitCommand ec := by
  rcases infraOptions_ok env p rt infra hi with ⟨_, rfl⟩ | ⟨_, ns, cfg, ec, hns, _, _, rfl⟩
  · simp at ho
  · simp only [List.mem_append, List.mem_singleton] at ho
    rcases ho with (rfl | ho) | rfl
    · exact Or.inl rfl
    · exact Or.inr (Or.inl ⟨ns, hns, ho⟩)
    · exact Or.inr (Or.inr ⟨ec, rfl⟩)

theorem mem_portOptions (env : Env) (p : PodSpecGenerator) (ports : List PodCreateOption)
    (hp : portOptions env p [] = .ok ports) (o : PodCreateOption) (ho : o ∈ ports) :
    ∃ parsed, o = PodCreateOption.WithInfraContainerPorts parsed := by
  rcases portOptions_ok env p ports hp with ⟨_, rfl⟩ | ⟨_, parsed, _, rfl⟩
  · simp at ho
  · simp only [List.mem_singleton] at ho
    exact ⟨parsed, ho⟩

/-- Counting pod-cgroups directives with no assumption on the resolver: one
more than the infra block holds. -/
theorem createPodOptions_count_podCgroups (env : Env) (p : PodSpecGenerator) (rt : Runtime)
    (opts : List PodCreateOption) (h : createPodOptions env p rt = .ok opts) :
    ∃ infra, infraOptions env p rt [] = .ok infra ∧
      opts.countP PodCreateOption.isPodCgroups
        = infra.countP PodCreateOption.isPodCgroups + 1 := by
  obtain ⟨infra, net, ports, hi, hn, hp, rfl⟩ := createPodOptions_ok env p rt opts h
  refine ⟨infra, hi, ?_⟩
  have hf : (fieldDirectives env p).countP PodCreateOption.isPodCgroups = 0 := by
    rw [List.countP_eq_zero]
    intro o ho
    simp only [fieldDirectives, List.mem_append, mem_guarded, mem_whenSet] at ho
    casesm* _ ∨ _, _ ∧ _, ∃ _, _ <;> subst_vars <;> simp [PodCreateOption.isPodCgroups]
  have hnet : net.toList.countP PodCreateOption.isPodCgroups = 0 := by
    cases net with
    | none => rfl
    | some d =>
      rcases resolveNetworkMode_cases _ _ _ _ _ hn with rfl | rfl | rfl <;> rfl
  have hh : (guarded p.NoManageHosts PodCreateOption.WithPodUseImageHosts).countP
      PodCreateOption.isPodCgroups = 0 := by
    cases p.NoManageHosts <;> rfl
  have hports : ports.countP PodCreateOption.isPodCgroups = 0 := by
    rw [List.countP_eq_zero]
    intro o ho
    obtain ⟨parsed, rfl⟩ := mem_portOptions env p ports hp o ho
    simp [PodCreateOption.isPodCgroups]
  have ht : (tailDirectives p).countP PodCreateOption.isPodCgroups = 1 := by
    unfold tailDirectives
    cases p.PodCreateCommand <;> cases (decide (p.InfraConmonPidFile.length > 0)) <;> rfl
  simp only [List.countP_append, hf, hnet, hh, hports, ht]

/-- C14, as stated, fails: when the namespace-option resolver answers the
shared namespace "cgroup" with the pod-cgroups directive, a pod with an infra
container that shares that namespace gets two pod-cgroups directives, the
resolver's and the one appended at line 142. -/
theorem pod_cgroups_twice :
    cgroupSharingPod.NoInfra = false ∧
    cgroupSharingEnv.GetNamespaceOptions cgroupSharingPod.SharedNamespaces
      = .ok [PodCreateOption.WithPodCgroups, PodCreateOption.Other "ipc"] ∧
    createPodOptions cgroupSharingEnv cgroupSharingPod sampleRuntime = .ok
      [PodCreateOption.WithInfraContainer, PodCreateOption.WithPodCgroups,
       PodCreateOption.Other "ipc",
       PodCreateOption.WithPodInfraExitCommand
         ["podman", "--root", "/var/lib/containers/storage", "--runtime", "runc",
          "container", "cleanup"],
       PodCreateOption.WithPodName "web", PodCreateOption.WithPodSlirp4netns [],
       PodCreateOption.WithPodCgroups] ∧
    [PodCreateOption.WithInfraContainer, PodCreateOption.WithPodCgroups,
     PodCreateOption.Other "ipc",
     PodCreateOption.WithPodInfraExitCommand
       ["podman", "--root", "/var/lib/containers/storage", "--runtime", "runc",
        "container", "cleanup"],
     PodCreateOption.WithPodName "web", PodCreateOption.WithPodSlirp4netns [],
     PodCreateOption.WithPodCgroups].countP PodCreateOption.isPodCgroups = 2 :=
  ⟨rfl, rfl, rfl, rfl⟩

/-- C14, amended. Every sequence successfully returned by `createPodOptions`
ends with the pod-cgroups directive appended at line 142, followed only by the
create-command and infra-conmon-pid-file directives, in that order; any other
pod-cgroups directive of the sequence is one of the namespace-option
directives of the infra block. The sequence therefore holds one pod-cgroups
directive more than the namespace-option resolver returned: exactly one when
`NoInfra` is true or the resolver returned none. -/
theorem pod_cgroups_directive (env : Env) (p : PodSpecGenerator) (rt : Runtime)
    (opts : List PodCreateOption) (h : createPodOptions env p rt = .ok opts) :
    (∃ front,
      opts = front ++ [PodCreateOption.WithPodCgroups]
        ++ whenSet p.PodCreateCommand PodCreateOption.WithPodCreateCommand
        ++ guarded (p.InfraConmonPidFile ≠ "")
            (PodCreateOption.WithInfraConmonPidFile p.InfraConmonPidFile) ∧
      ∀ o ∈ front, o.isPodCgroups = true →
        p.NoInfra = false ∧
        ∃ ns, env.GetNamespaceOptions p.SharedNamespaces = .ok ns ∧ o ∈ ns) ∧
    (p.NoInfra = true → opts.countP PodCreateOption.isPodCgroups = 1) ∧
    (∀ ns, p.NoInfra = false → env.GetNamespaceOptions p.SharedNamespaces = .ok ns →
      opts.countP PodCreateOption.isPodCgroups
        = ns.countP PodCreateOption.isPodCgroups + 1) := by
  refine ⟨?_, ?_, ?_⟩
  · obtain ⟨infra, net, ports, hi, hn, hp, rfl⟩ := createPodOptions_front env p rt opts h
    refine ⟨_, rfl, ?_⟩
    intro o ho hsel
    simp only [List.mem_append] at ho
    rcases ho with (((ho | ho) | ho) | ho) | ho
    · rcases infraOptions_ok env p rt infra hi with ⟨_, rfl⟩ | ⟨hI, ns, cfg, ec, hns, _, _, rfl⟩
      · simp at ho
      · simp only [List.mem_append, List.mem_singleton] at ho
        rcases ho with (rfl | ho) | rfl
        · cases hsel
        · exact ⟨hI, ns, hns, ho⟩
        · cases hsel
    · simp only [fieldDirectives, List.mem_append, mem_guarded, mem_whenSet] at ho
      casesm* _ ∨ _, _ ∧ _, ∃ _, _ <;> subst_vars <;> cases hsel
    · cases net with
      | none => simp at ho
      | some d =>
        simp only [Option.toList, List.mem_singleton] at ho
        subst ho
        rcases resolveNetworkMode_cases _ _ _ _ _ hn with rfl | rfl | rfl <;> cases hsel
    · rw [mem_guarded] at ho
      rw [ho.2] at hsel
      cases hsel
    · obtain ⟨parsed, rfl⟩ := mem_portOptions env p ports hp o ho
      cases hsel
  · intro hI
    obtain ⟨infra, hi, hcount⟩ := createPodOptions_count_podCgroups env p rt opts h
    rw [infraOptions_noInfra env p rt hI] at hi
    cases hi
    rw [hcount]
    rfl
  · intro ns hI hns
    obtain ⟨infra, hi, hcount⟩ := createPodOptions_count_podCgroups env p rt opts h
    rcases infraOptions_ok env p rt infra hi with ⟨hI', _⟩ | ⟨_, ns', cfg, ec, hns', _, _, rfl⟩
    · rw [hI] at hI'; cases hI'
    · rw [hns] at hns'
      cases hns'
      rw [hcount, List.countP_append, List.countP_append]
      have h1 : [PodCreateOption.WithInfraContainer].countP PodCreateOption.isPodCgroups
          = 0 := rfl
      have h2 : [PodCreateOption.WithPodInfraExitCommand ec].countP
          PodCreateOption.isPodCgroups = 0 := rfl
      rw [h1, h2]
      omega

/-- The amended C14 at a pod whose resolver returns one pod-cgroups directive
(two in all) and at a pod without infra container (exactly one). -/
theorem pod_cgroups_directive_witness :
    (cgroupSharingPod.NoInfra = false ∧
      ∃ opts, createPodOptions cgroupSharingEnv cgroupSharingPod sampleRuntime = .ok opts ∧
        opts.countP PodCreateOption.isPodCgroups
          = [PodCreateOption.WithPodCgroups, PodCreateOption.Other "ipc"].countP
              PodCreateOption.isPodCgroups + 1) ∧
    (infraFieldsPod.NoInfra = true ∧
      ∃ opts, createPodOptions sampleEnv infraFieldsPod sampleRuntime = .ok opts ∧
        opts.countP PodCreateOption.isPodCgroups = 1) ∧
    (dnsPod.NoInfra = false ∧
      ∃ opts, createPodOptions sampleEnv dnsPod sampleRuntime = .ok opts ∧
        opts.countP PodCreateOption.isPodCgroups = 1 ∧
        ∃ front,
          opts = front ++ [PodCreateOption.WithPodCgroups]
            ++ whenSet dnsPod.PodCreateCommand PodCreateOption.WithPodCreateCommand
            ++ guarded (dnsPod.InfraConmonPidFile ≠ "")
                (PodCreateOption.WithInfraConmonPidFile dnsPod.InfraConmonPidFile) ∧
          ∀ o ∈ front, o.isPodCgroups = true →
            dnsPod.NoInfra = false ∧
            ∃ ns, sampleEnv.GetNamespaceOptions dnsPod.SharedNamespaces = .ok ns ∧ o ∈ ns) :=
  have h₁ := pod_cgroups_directive cgroupSharingEnv cgroupSharingPod sampleRuntime _ rfl
  have h₂ := pod_cgroups_directive sampleEnv infraFieldsPod sampleRuntime _ rfl
  have h₃ := pod_cgroups_directive sampleEnv dnsPod sampleRuntime _ rfl
  ⟨⟨rfl, _, rfl, h₁.2.2 _ rfl rfl⟩, ⟨rfl, _, rfl, h₂.2.1 rfl⟩,
    ⟨rfl, _, rfl, h₃.2.2 _ rfl rfl, h₃.1⟩⟩

theorem countP_sub (sel sup : PodCreateOption → Bool)
    (hsel : ∀ o, sel o = true → sup o = true) (l : List PodCreateOption) :
    l.countP sel = (l.filter sup).countP sel := by
  rw [List.countP_filter]
  congr 1
  funext o
  cases hs : sel o with
  | false => simp
  | true => simp [hsel o hs]

theorem infra_filter_nil (env : Env) (p : PodSpecGenerator) (rt : Runtime)
    (infra : List PodCreateOption) (hi : infraOptions env p rt [] = .ok infra)
    (sel : PodCreateOption → Bool) (hns : NamespaceOptionsAvoid env p sel)
    (h1 : sel PodCreateOption.WithInfraContainer = false)
    (h2 : ∀ ec, sel (PodCreateOption.WithPodInfraExitCommand ec) = false) :
    infra.filter sel = [] := by
  apply filter_eq_nil_of_forall
  intro o ho
  rcases mem_infraOptions env p rt infra hi o ho with rfl | ⟨ns, hns', ho⟩ | ⟨ec, rfl⟩
  · exact h1
  · exact hns ns hns' o ho
  · exact h2 ec

theorem net_filter_nil (mode : NamespaceMode) (noInfra unprivileged : Bool)
    (networkOptions : List (String × List String)) (net : Option PodCreateOption)
    (hn : resolveNetworkMode mode noInfra unprivileged networkOptions = .ok net)
    (sel : PodCreateOption → Bool)
    (h1 : sel PodCreateOption.WithPodHostNetwork = false)
    (h2 : ∀ no, sel (PodCreateOption.WithPodSlirp4netns no) = false)
    (h3 : sel PodCreateOption.WithPodNoNetwork = false) :
    net.toList.filter sel = [] := by
  apply filter_eq_nil_of_forall
  intro o ho
  cases net with
  | none => simp at ho
  | some d =>
    simp only [Option.toList, List.mem_singleton] at ho
    subst ho
    rcases resolveNetworkMode_cases _ _ _ _ _ hn with rfl | rfl | rfl
    · exact h1
    · exact h2 _
    · exact h3

theorem ports_filter_nil (env : Env) (p : PodSpecGenerator) (ports : List PodCreateOption)
    (hp : portOptions env p [] = .ok ports) (sel : PodCreateOption → Bool)
    (h : ∀ b, sel (PodCreateOption.WithInfraContainerPorts b) = false) :
    ports.filter sel = [] := by
  apply filter_eq_nil_of_forall
  intro o ho
  obtain ⟨parsed, rfl⟩ := mem_portOptions env p ports hp o ho
  exact h parsed

theorem tail_filter_nil (p : PodSpecGenerator) (sel : PodCreateOption → Bool)
    (h1 : sel PodCreateOption.WithPodCgroups = false)
    (h2 : ∀ c, sel (PodCreateOption.WithPodCreateCommand c) = false)
    (h3 : ∀ f, sel (PodCreateOption.WithInfraConmonPidFile f) = false) :
    (tailDirectives p).filter sel = [] := by
  apply filter_eq_nil_of_forall
  intro o ho
  simp only [tailDirectives, List.mem_append, List.mem_singleton, mem_guarded,
    mem_whenSet] at ho
  casesm* _ ∨ _, _ ∧ _, ∃ _, _ <;> subst_vars <;> simp [h1, h2, h3]

/-! ## C15: the DNS-servers directive -/

/-- C15. For every specification with a non-empty DNS server list, a
successful `createPodOptions` emits a single DNS-servers directive, and it
carries a list of the same length and order as the input whose i-th element is
the string form of the i-th DNS server (the namespace-option resolver being
one that returns no DNS-servers directive). -/
theorem dns_servers_directive (env : Env) (p : PodSpecGenerator) (rt : Runtime)
    (opts : List PodCreateOption)
    (hdns : p.DNSServer ≠ [])
    (hns : NamespaceOptionsAvoid env p PodCreateOption.isPodDNS)
    (h : createPodOptions env p rt = .ok opts) :
    ∃ servers, opts.filter PodCreateOption.isPodDNS = [PodCreateOption.WithPodDNS servers] ∧
      servers.length = p.DNSServer.length ∧
      ∀ i : Nat, servers[i]? = (p.DNSServer[i]?).map env.IPString := by
  obtain ⟨infra, net, ports, hi, hn, hp, rfl⟩ := createPodOptions_ok env p rt opts h
  refine ⟨p.DNSServer.map env.IPString, ?_, by simp, fun i => by simp⟩
  have hfield : (fieldDirectives env p).filter PodCreateOption.isPodDNS
      = [PodCreateOption.WithPodDNS (p.DNSServer.map env.IPString)] := by
    simp only [fieldDirectives, List.filter_append, list_length_pos, filter_guarded,
      filter_whenSet_of_false PodCreateOption.isPodDNS p.StaticIP
        PodCreateOption.WithPodStaticIP (fun _ => rfl),
      filter_whenSet_of_false PodCreateOption.isPodDNS p.StaticMAC
        PodCreateOption.WithPodStaticMAC (fun _ => rfl)]
    simp [PodCreateOption.isPodDNS, guarded, hdns]
  have hhosts : (guarded p.NoManageHosts PodCreateOption.WithPodUseImageHosts).filter
      PodCreateOption.isPodDNS = [] := by
    cases p.NoManageHosts <;> rfl
  simp only [List.filter_append, hfield, hhosts,
    infra_filter_nil env p rt infra hi PodCreateOption.isPodDNS hns rfl (fun _ => rfl),
    net_filter_nil _ _ _ _ net hn PodCreateOption.isPodDNS rfl (fun _ => rfl) rfl,
    ports_filter_nil env p ports hp PodCreateOption.isPodDNS (fun _ => rfl),
    tail_filter_nil p PodCreateOption.isPodDNS rfl (fun _ => rfl) (fun _ => rfl),
    List.nil_append, List.append_nil]

/-- C15 at a pod with two DNS servers. -/
theorem dns_servers_directive_witness :
    dnsPod.DNSServer ≠ [] ∧
    NamespaceOptionsAvoid sampleEnv dnsPod PodCreateOption.isPodDNS ∧
    (∃ opts, createPodOptions sampleEnv dnsPod sampleRuntime = .ok opts ∧
      PodCreateOption.WithPodDNS ["10.0.0.2", "10.0.0.3"] ∈ opts) ∧
    ∃ opts, createPodOptions sampleEnv dnsPod sampleRuntime = .ok opts ∧
      ∃ servers, opts.filter PodCreateOption.isPodDNS = [PodCreateOption.WithPodDNS servers] ∧
        servers.length = dnsPod.DNSServer.length ∧
        ∀ i : Nat, servers[i]? = (dnsPod.DNSServer[i]?).map sampleEnv.IPString :=
  ⟨by decide, sampleEnv_avoid dnsPod _ (fun _ => rfl), ⟨_, rfl, by decide⟩, _, rfl,
    dns_servers_directive sampleEnv dnsPod sampleRuntime _ (by decide)
      (sampleEnv_avoid dnsPod _ (fun _ => rfl)) rfl⟩

/-! ## C16: static addresses and the network mode -/

/-- C16. Static IP and static MAC directives are emitted whenever the
corresponding field is present, independently of the network mode: a
successful result holds the static-IP (resp. static-MAC) directive of a
specification that sets the field, next to the host-networking directive for
mode Host and the disable-networking directive for mode NoNetwork; and the
combination is not rejected, for `createPodOptions` fails on a specification
exactly as it fails on the same specification without static addresses. -/
theorem static_address_independent_of_mode (env : Env) (p : PodSpecGenerator) (rt : Runtime) :
    (∀ e, createPodOptions env p rt = .error e ↔
      createPodOptions env p.withoutStaticAddresses rt = .error e) ∧
    ∀ opts, createPodOptions env p rt = .ok opts →
      (∀ ip, p.StaticIP = some ip → PodCreateOption.WithPodStaticIP ip ∈ opts) ∧
      (∀ mac, p.StaticMAC = some mac → PodCreateOption.WithPodStaticMAC mac ∈ opts) ∧
      (p.NetNS.NSMode = specgen.Host → PodCreateOption.WithPodHostNetwork ∈ opts) ∧
      (p.NetNS.NSMode = specgen.NoNetwork → PodCreateOption.WithPodNoNetwork ∈ opts) := by
  constructor
  · intro e
    have hi : infraOptions env p.withoutStaticAddresses rt [] = infraOptions env p rt [] := rfl
    have hn : netOptions env p.withoutStaticAddresses [] = netOptions env p [] := rfl
    have hp : portOptions env p.withoutStaticAddresses [] = portOptions env p [] := rfl
    rw [createPodOptions_eq env p, createPodOptions_eq env p.withoutStaticAddresses, hi, hn, hp]
    cases infraOptions env p rt [] with
    | error e' => simp [Except.bind]
    | ok infra =>
      cases netOptions env p [] with
      | error e' => simp [Except.bind]
      | ok net =>
        cases portOptions env p [] with
        | error e' => simp [Except.bind]
        | ok ports => simp [Except.bind]
  · intro opts h
    obtain ⟨infra, net, ports, hi, hn, hp, rfl⟩ := createPodOptions_ok env p rt opts h
    refine ⟨?_, ?_, ?_, ?_⟩
    · intro ip hip
      have : PodCreateOption.WithPodStaticIP ip ∈ fieldDirectives env p := by
        simp [fieldDirectives, hip, whenSet]
      simp [this]
    · intro mac hmac
      have : PodCreateOption.WithPodStaticMAC mac ∈ fieldDirectives env p := by
        simp [fieldDirectives, hmac, whenSet]
      simp [this]
    · intro hmode
      rw [hmode] at hn
      simp [resolveNetworkMode, specgen.Host, specgen.Default, specgen.Bridge] at hn
      simp [← hn]
    · intro hmode
      rw [hmode] at hn
      simp [resolveNetworkMode, specgen.NoNetwork, specgen.Slirp, specgen.Host,
        specgen.Default, specgen.Bridge] at hn
      simp [← hn]

/-- C16 at a pod with a static IP and MAC, once with mode Host and once with
mode NoNetwork. -/
theorem static_address_independent_of_mode_witness :
    dnsPod.StaticIP = some [10, 88, 0, 5] ∧ dnsPod.StaticMAC = some [2, 66, 172, 17, 0, 5] ∧
    dnsPod.NetNS.NSMode = specgen.Host ∧
    (∃ opts, createPodOptions sampleEnv dnsPod sampleRuntime = .ok opts ∧
      PodCreateOption.WithPodStaticIP [10, 88, 0, 5] ∈ opts ∧
      PodCreateOption.WithPodStaticMAC [2, 66, 172, 17, 0, 5] ∈ opts ∧
      PodCreateOption.WithPodHostNetwork ∈ opts) ∧
    (∃ opts, createPodOptions sampleEnv { dnsPod with NetNS := ⟨specgen.NoNetwork, ""⟩ }
        sampleRuntime = .ok opts ∧
      PodCreateOption.WithPodStaticIP [10, 88, 0, 5] ∈ opts ∧
      PodCreateOption.WithPodStaticMAC [2, 66, 172, 17, 0, 5] ∈ opts ∧
      PodCreateOption.WithPodNoNetwork ∈ opts) :=
  have h₁ := (static_address_independent_of_mode sampleEnv dnsPod sampleRuntime).2 _ rfl
  have h₂ := (static_address_independent_of_mode sampleEnv
    { dnsPod with NetNS := ⟨specgen.NoNetwork, ""⟩ } sampleRuntime).2 _ rfl
  ⟨rfl, rfl, rfl, ⟨_, rfl, h₁.1 _ rfl, h₁.2.1 _ rfl, h₁.2.2.1 rfl⟩,
    ⟨_, rfl, h₂.1 _ rfl, h₂.2.1 _ rfl, h₂.2.2.2 rfl⟩⟩

/-! ## C17: infra directives -/

theorem isInfraContainer_sub (o : PodCreateOption) (h : o.isInfraContainer = true) :
    o.isInfraOrExit = true := by
  cases o <;> first | rfl | cases h

theorem isExitCommand_sub (o : PodCreateOption) (h : o.isExitCommand = true) :
    o.isInfraOrExit = true := by
  cases o <;> first | rfl | cases h

theorem mem_fieldDirectives_of_guard (env : Env) (p : PodSpecGenerator) (o : PodCreateOption)
    (h : o ∈ guarded (p.InfraImage.length > 0) (PodCreateOption.WithInfraImage p.InfraImage)
      ∨ o ∈ guarded (p.InfraName.length > 0) (PodCreateOption.WithInfraName p.InfraName)
      ∨ o ∈ guarded (p.InfraCommand.length > 0)
          (PodCreateOption.WithInfraCommand p.InfraCommand)) :
    o ∈ fieldDirectives env p := by
  simp only [fieldDirectives, List.mem_append]
  rcases h with h | h | h
  · exact Or.inl (Or.inl (Or.inl (Or.inr h)))
  · exact Or.inl (Or.inl (Or.inr h))
  · exact Or.inl (Or.inr h)

/-- C17. In every sequence successfully returned by `createPodOptions`, the
infra-enable directive and the exit-command directive each occur exactly once
when `NoInfra` is false, with infra-enable as the first element and the exit
command built with both trailing flags false, and not at all when `NoInfra` is
true; whereas the infra-image, infra-name, infra-command, infra-ports and
infra-conmon-pid-file directives are emitted whenever their fields are
non-empty, also when `NoInfra` is true (the namespace-option resolver being
one that returns no infra-enable and no exit-command directive). -/
theorem infra_directives (env : Env) (p : PodSpecGenerator) (rt : Runtime)
    (opts : List PodCreateOption)
    (hns : NamespaceOptionsAvoid env p PodCreateOption.isInfraOrExit)
    (h : createPodOptions env p rt = .ok opts) :
    (p.NoInfra = false →
      opts.head? = some PodCreateOption.WithInfraContainer ∧
      opts.countP PodCreateOption.isInfraContainer = 1 ∧
      opts.countP PodCreateOption.isExitCommand = 1 ∧
      ∃ cfg ec, rt.GetConfig = .ok cfg ∧
        env.CreateExitCommandArgs rt.StorageConfig cfg env.IsDebugLevelEnabled false false
          = .ok ec ∧
        opts.filter PodCreateOption.isInfraOrExit
          = [PodCreateOption.WithInfraContainer, PodCreateOption.WithPodInfraExitCommand ec]) ∧
    (p.NoInfra = true → ∀ o ∈ opts, o.isInfraOrExit = false) ∧
    (p.InfraImage ≠ "" → PodCreateOption.WithInfraImage p.InfraImage ∈ opts) ∧
    (p.InfraName ≠ "" → PodCreateOption.WithInfraName p.InfraName ∈ opts) ∧
    (p.InfraCommand ≠ [] → PodCreateOption.WithInfraCommand p.InfraCommand ∈ opts) ∧
    (p.PortMappings ≠ [] → ∃ parsed, env.ParsePortMapping p.PortMappings = .ok parsed ∧
      PodCreateOption.WithInfraContainerPorts parsed ∈ opts) ∧
    (p.InfraConmonPidFile ≠ "" →
      PodCreateOption.WithInfraConmonPidFile p.InfraConmonPidFile ∈ opts) := by
  obtain ⟨infra, net, ports, hi, hn, hp, rfl⟩ := createPodOptions_ok env p rt opts h
  have hfield : (fieldDirectives env p).filter PodCreateOption.isInfraOrExit = [] := by
    apply filter_eq_nil_of_forall
    intro o ho
    simp only [fieldDirectives, List.mem_append, mem_guarded, mem_whenSet] at ho
    casesm* _ ∨ _, _ ∧ _, ∃ _, _ <;> subst_vars <;> rfl
  have hhosts : (guarded p.NoManageHosts PodCreateOption.WithPodUseImageHosts).filter
      PodCreateOption.isInfraOrExit = [] := by
    cases p.NoManageHosts <;> rfl
  have hrest : (infra ++ fieldDirectives env p ++ net.toList
      ++ guarded p.NoManageHosts PodCreateOption.WithPodUseImageHosts ++ ports
      ++ tailDirectives p).filter PodCreateOption.isInfraOrExit
      = infra.filter PodCreateOption.isInfraOrExit := by
    simp only [List.filter_append, hfield, hhosts,
      net_filter_nil _ _ _ _ net hn PodCreateOption.isInfraOrExit rfl (fun _ => rfl) rfl,
      ports_filter_nil env p ports hp PodCreateOption.isInfraOrExit (fun _ => rfl),
      tail_filter_nil p PodCreateOption.isInfraOrExit rfl (fun _ => rfl) (fun _ => rfl),
      List.append_nil]
  refine ⟨?_, ?_, ?_, ?_, ?_, ?_, ?_⟩
  · intro hI
    rcases infraOptions_ok env p rt infra hi with ⟨hI', _⟩ | ⟨_, ns, cfg, ec, hns', hcfg, hec, rfl⟩
    · rw [hI] at hI'; cases hI'
    · have hnsf : ns.filter PodCreateOption.isInfraOrExit = [] :=
        filter_eq_nil_of_forall _ _ (hns ns hns')
      have hfilter : ([PodCreateOption.WithInfraContainer] ++ ns
          ++ [PodCreateOption.WithPodInfraExitCommand ec]).filter PodCreateOption.isInfraOrExit
          = [PodCreateOption.WithInfraContainer, PodCreateOption.WithPodInfraExitCommand ec] := by
        simp only [List.filter_append, hnsf]
        rfl
      refine ⟨by simp, ?_, ?_, cfg, ec, hcfg, hec, ?_⟩
      · rw [countP_sub PodCreateOption.isInfraContainer PodCreateOption.isInfraOrExit
          isInfraContainer_sub, hrest, hfilter]
        rfl
      · rw [countP_sub PodCreateOption.isExitCommand PodCreateOption.isInfraOrExit
          isExitCommand_sub, hrest, hfilter]
        rfl
      · rw [hrest, hfilter]
  · intro hI o ho
    rw [infraOptions_noInfra env p rt hI] at hi
    cases hi
    cases hs : o.isInfraOrExit with
    | false => rfl
    | true =>
      have hmem : o ∈ ([] ++ fieldDirectives env p ++ net.toList
          ++ guarded p.NoManageHosts PodCreateOption.WithPodUseImageHosts ++ ports
          ++ tailDirectives p).filter PodCreateOption.isInfraOrExit :=
        List.mem_filter.2 ⟨ho, hs⟩
      rw [hrest] at hmem
      simp at hmem
  · intro hne
    have : PodCreateOption.WithInfraImage p.InfraImage ∈ fieldDirectives env p := by
      apply mem_fieldDirectives_of_guard
      left
      rw [mem_guarded, string_length_pos]
      exact ⟨by simp [hne], rfl⟩
    simp [this]
  · intro hne
    have : PodCreateOption.WithInfraName p.InfraName ∈ fieldDirectives env p := by
      apply mem_fieldDirectives_of_guard
      right; left
      rw [mem_guarded, string_length_pos]
      exact ⟨by simp [hne], rfl⟩
    simp [this]
  · intro hne
    have : PodCreateOption.WithInfraCommand p.InfraCommand ∈ fieldDirectives env p := by
      apply mem_fieldDirectives_of_guard
      right; right
      rw [mem_guarded, list_length_pos]
      exact ⟨by simp [hne], rfl⟩
    simp [this]
  · intro hne
    rcases portOptions_ok env p ports hp with ⟨hP, _⟩ | ⟨_, parsed, hparse, rfl⟩
    · exact absurd hP hne
    · exact ⟨parsed, hparse, by simp⟩
  · intro hne
    have : PodCreateOption.WithInfraConmonPidFile p.InfraConmonPidFile ∈ tailDirectives p := by
      simp [tailDirectives, mem_guarded, string_length_pos, hne]
    simp [this]

/-- C17 at the pod named "web", which requests an infra container, and at a
pod that does not but sets every infra field. -/
theorem infra_directives_witness :
    NamespaceOptionsAvoid sampleEnv webPod PodCreateOption.isInfraOrExit ∧
    webPod.NoInfra = false ∧
    (∃ opts, createPodOptions sampleEnv webPod sampleRuntime = .ok opts ∧
      opts.head? = some PodCreateOption.WithInfraContainer ∧
      opts.countP PodCreateOption.isInfraContainer = 1 ∧
      opts.countP PodCreateOption.isExitCommand = 1) ∧
    infraFieldsPod.NoInfra = true ∧
    (∃ opts, createPodOptions sampleEnv infraFieldsPod sampleRuntime = .ok opts ∧
      (∀ o ∈ opts, o.isInfraOrExit = false) ∧
      PodCreateOption.WithInfraImage "k8s.gcr.io/pause:3.2" ∈ opts ∧
      PodCreateOption.WithInfraName "infra" ∈ opts ∧
      PodCreateOption.WithInfraCommand ["/pause"] ∈ opts ∧
      (∃ parsed, sampleEnv.ParsePortMapping infraFieldsPod.PortMappings = .ok parsed ∧
        PodCreateOption.WithInfraContainerPorts parsed ∈ opts) ∧
      PodCreateOption.WithInfraConmonPidFile "/run/infra.pid" ∈ opts) :=
  have h₁ := infra_directives sampleEnv webPod sampleRuntime _
    (sampleEnv_avoid webPod _ (fun _ => rfl)) rfl
  have h₂ := infra_directives sampleEnv infraFieldsPod sampleRuntime _
    (sampleEnv_avoid infraFieldsPod _ (fun _ => rfl)) rfl
  ⟨sampleEnv_avoid webPod _ (fun _ => rfl), rfl,
    ⟨_, rfl, (h₁.1 rfl).1, (h₁.1 rfl).2.1, (h₁.1 rfl).2.2.1⟩, rfl,
    ⟨_, rfl, h₂.2.1 rfl, h₂.2.2.1 (by decide), h₂.2.2.2.1 (by decide),
      h₂.2.2.2.2.1 (by decide), h₂.2.2.2.2.2.1 (by decide), h₂.2.2.2.2.2.2 (by decide)⟩⟩

end Podman

namespace Crio

/-! ## Facts about the layer annotations -/

theorem append_left_cancel (p a b : String) (h : p ++ a = p ++ b) : a = b := by
  rw [String.ext_iff] at h ⊢
  simpa using h

theorem uint64_of_pos (v : GoInt64) (h : v.val > 0) : uint64 v = v.val.toNat := by
  have hi := v.hi
  unfold uint64
  congr 1
  omega

theorem foldl_addLayer_entries (l : List (Sigma (fun _ : String => GoInt64)))
    (acc : AList (fun _ : String => String)) (hnd : l.NodupKeys)
    (hdisj : ∀ e ∈ l, LAYER_ANNOTATION_PREFIX ++ e.1 ∉ acc) :
    (l.foldl (fun r a => addLayer r a.1 a.2) acc).entries
      = ((l.filter (fun e => decide (e.2.val > 0))).map layerEntry).reverse ++ acc.entries := by
  induction l generalizing acc with
  | nil => simp
  | cons e l ih =>
    rw [List.nodupKeys_cons] at hnd
    obtain ⟨hnotin, hnd⟩ := hnd
    have hacc : LAYER_ANNOTATION_PREFIX ++ e.1 ∉ acc := hdisj e (List.mem_cons_self _ _)
    simp only [List.foldl_cons]
    by_cases hpos : e.2.val > 0
    · have hstep : addLayer acc e.1 e.2
          = acc.insert ( LAYER_ANNOTATION_PREFIX ++ e.1) (FormatUint (uint64 e.2) 10) := by
        simp [addLayer, hpos]
      rw [hstep, ih _ hnd]
      · rw [AList.insert_entries_of_neg hacc]
        simp [List.filter_cons, hpos, layerEntry]
      · intro e' he' hmem
        rw [AList.mem_insert] at hmem
        rcases hmem with heq | hmem
        · have hk : e'.1 = e.1 := append_left_cancel _ _ _ heq
          apply hnotin
          rw [← hk]
          exact List.mem_keys_of_mem he'
        · exact hdisj e' (List.mem_cons_of_mem _ he') hmem
    · have hstep : addLayer acc e.1 e.2 = acc := by
        simp [addLayer, hpos]
      rw [hstep, ih _ hnd (fun e' he' => hdisj e' (List.mem_cons_of_mem _ he'))]
      simp [List.filter_cons, hpos]

theorem layerAnnotations_entries (layersInfo : AList (fun _ : String => GoInt64)) :
    (layersInfo.foldl addLayer ∅).entries
      = ((layersInfo.entries.filter (fun e => decide (e.2.val > 0))).map layerEntry).reverse := by
  have h := foldl_addLayer_entries layersInfo.entries ∅ layersInfo.nodupKeys
    (fun e _ => AList.not_mem_empty _)
  simpa [AList.foldl] using h

/-- The image built by `ConvertImage` from a non-nil result, field by field. -/
theorem ConvertImage_some (getUserFromImage : String → Option Int × String)
    (frm : ImageResult) :
    ConvertImage getUserFromImage (some frm) = some
      { ID := frm.ID,
        RepoTags := if frm.RepoTags.len > 0 then frm.RepoTags else some [],
        RepoDigests :=
          if frm.RepoDigests.len > 0 then frm.RepoDigests
          else if frm.PreviousName ≠ "" ∧ frm.Digest ≠ "" then
            some [frm.PreviousName ++ "@" ++ frm.Digest]
          else some [],
        Size := frm.Size.getD 0,
        UID := (getUserFromImage frm.User).1,
        Username := (getUserFromImage frm.User).2,
        Spec := some { Image := frm.ID, Annotations := frm.LayersInfo.foldl addLayer ∅ } } := by
  unfold ConvertImage
  dsimp only
  generalize getUserFromImage frm.User = u
  obtain ⟨uid, username⟩ := u
  generalize frm.Size = size
  cases uid <;> cases size <;> rfl

/-! ## C18: the fields of a converted image -/

/-- C18. `ConvertImage` returns nil iff its argument is nil; for every non-nil
`ImageResult` the result has `ID` and `Spec.Image` equal to `from.ID`,
`RepoTags` equal to `from.RepoTags` when non-empty and otherwise an empty
non-nil list, and `RepoDigests` equal to `from.RepoDigests` when non-empty,
otherwise the single entry `PreviousName + "@" + Digest` when both are
non-empty, otherwise an empty non-nil list. -/
theorem ConvertImage_fields (getUserFromImage : String → Option Int × String) :
    (∀ frm, ConvertImage getUserFromImage frm = none ↔ frm = none) ∧
    ∀ frm : ImageResult, ∃ image spec,
      ConvertImage getUserFromImage (some frm) = some image ∧
      image.ID = frm.ID ∧ image.Spec = some spec ∧ spec.Image = frm.ID ∧
      image.RepoTags = (if frm.RepoTags.len > 0 then frm.RepoTags else some []) ∧
      image.RepoDigests =
        (if frm.RepoDigests.len > 0 then frm.RepoDigests
          else if frm.PreviousName ≠ "" ∧ frm.Digest ≠ "" then
            some [frm.PreviousName ++ "@" ++ frm.Digest]
          else some []) := by
  constructor
  · intro frm
    cases frm with
    | none => simp [ConvertImage]
    | some frm => simp [ConvertImage_some]
  · intro frm
    exact ⟨_, _, ConvertImage_some getUserFromImage frm, rfl, rfl, rfl, rfl, rfl⟩

/-! ## C19: the layer annotations -/

/-- C19. For every non-nil `ImageResult`, the annotations of the converted
image contain the key `"imageLayer." + k` with value `v` in decimal exactly
when `LayersInfo` maps `k` to `v` with `v > 0`; layers with a zero or negative
size are omitted, every annotation key starts with the prefix `"imageLayer."`,
and the number of annotations equals the number of positive-size layers. -/
theorem ConvertImage_annotations (getUserFromImage : String → Option Int × String)
    (frm : ImageResult) :
    ∃ image spec,
      ConvertImage getUserFromImage (some frm) = some image ∧ image.Spec = some spec ∧
      (∀ k s, spec.Annotations.lookup ( LAYER_ANNOTATION_PREFIX ++ k) = some s ↔
        ∃ v, frm.LayersInfo.lookup k = some v ∧ v.val > 0 ∧ s = Nat.repr v.val.toNat) ∧
      (∀ k v, frm.LayersInfo.lookup k = some v → v.val ≤ 0 →
        spec.Annotations.lookup ( LAYER_ANNOTATION_PREFIX ++ k) = none) ∧
      (∀ key ∈ spec.Annotations.keys, ∃ k, key = LAYER_ANNOTATION_PREFIX ++ k) ∧
      spec.Annotations.keys.length
        = (frm.LayersInfo.entries.filter (fun e => decide (e.2.val > 0))).length := by
  refine ⟨_, _, ConvertImage_some getUserFromImage frm, rfl, ?_⟩
  have hent := layerAnnotations_entries frm.LayersInfo
  have hlookup : ∀ k s,
      (frm.LayersInfo.foldl addLayer ∅).lookup ( LAYER_ANNOTATION_PREFIX ++ k) = some s ↔
        ∃ v, frm.LayersInfo.lookup k = some v ∧ v.val > 0 ∧ s = Nat.repr v.val.toNat := by
    intro k s
    rw [← Option.mem_def, AList.mem_lookup_iff, hent]
    simp only [List.mem_reverse, List.mem_map, List.mem_filter, decide_eq_true_eq]
    constructor
    · rintro ⟨e, ⟨he, hpos⟩, heq⟩
      obtain ⟨ek, ev⟩ := e
      simp only [layerEntry, Sigma.mk.inj_iff, heq_eq_eq] at heq
      obtain ⟨hk, hv⟩ := heq
      have hk' : ek = k := append_left_cancel _ _ _ hk
      subst hk'
      refine ⟨ev, ?_, hpos, ?_⟩
      · rw [← Option.mem_def, AList.mem_lookup_iff]
        exact he
      · rw [← hv, uint64_of_pos ev hpos]
        rfl
    · rintro ⟨v, hv, hpos, rfl⟩
      rw [← Option.mem_def, AList.mem_lookup_iff] at hv
      refine ⟨⟨k, v⟩, ⟨hv, hpos⟩, ?_⟩
      simp only [layerEntry, Sigma.mk.inj_iff, heq_eq_eq, true_and]
      rw [uint64_of_pos v hpos]
      rfl
  refine ⟨hlookup, ?_, ?_, ?_⟩
  · intro k v hv hle
    cases hl : (frm.LayersInfo.foldl addLayer ∅).lookup ( LAYER_ANNOTATION_PREFIX ++ k) with
    | none => rfl
    | some s =>
      obtain ⟨v', hv', hpos, _⟩ := (hlookup k s).1 hl
      rw [hv] at hv'
      cases hv'
      omega
  · intro key hkey
    simp only [AList.keys, List.keys, hent, List.map_reverse, List.mem_reverse, List.mem_map]
      at hkey
    obtain ⟨_, ⟨e, _, rfl⟩, rfl⟩ := hkey
    exact ⟨e.1, rfl⟩
  · simp [AList.keys, List.keys, hent]

/-- C19 at an image with one layer of 4096 bytes and one empty layer. -/
theorem ConvertImage_annotations_witness :
    ∃ image spec,
      ConvertImage sampleUser (some sampleImage) = some image ∧ image.Spec = some spec ∧
      spec.Annotations.lookup "imageLayer.base" = some "4096" ∧
      spec.Annotations.lookup "imageLayer.empty" = none ∧
      spec.Annotations.keys.length = 1 := by
  obtain ⟨image, spec, hc, hs, hl, hz, _, hn⟩ := ConvertImage_annotations sampleUser sampleImage
  refine ⟨image, spec, hc, hs, ?_, ?_, ?_⟩
  · exact (hl "base" "4096").2 ⟨⟨4096, by decide, by decide⟩, rfl, by decide, by decide⟩
  · exact hz "empty" ⟨0, by decide, by decide⟩ rfl (by decide)
  · rw [hn]
    decide

/-! ## C20: listing images -/

theorem foldl_append_images (getUserFromImage : String → Option Int × String)
    (results : List ImageResult) (resp : ListImagesResponse) :
    results.foldl
      (fun resp result =>
        { resp with Images := resp.Images ++ [ConvertImage getUserFromImage (some result)] })
      resp
      = { Images := resp.Images
            ++ results.map (fun result => ConvertImage getUserFromImage (some result)) } := by
  induction results generalizing resp with
  | nil => simp
  | cons r rs ih => simp [ih]

/-- C20. `ListImages` queries the image store with the filter string
`req.Filter.Image.Image` when both `req.Filter` and `req.Filter.Image` are
present and with the empty string otherwise; if the store fails it returns
that error and no response; otherwise the response holds exactly one image
per store result, in the store's order, the i-th being `ConvertImage` of the
i-th result. -/
theorem ListImages_response (s : Server) (getUserFromImage : String → Option Int × String)
    (req : ListImagesRequest) :
    ∃ filter,
      (∀ reqFilter filterImage, req.Filter = some reqFilter →
        reqFilter.Image = some filterImage → filter = filterImage.Image) ∧
      ((req.Filter = none ∨ ∃ reqFilter, req.Filter = some reqFilter ∧ reqFilter.Image = none) →
        filter = "") ∧
      (∀ err, s.StorageListImages s.SystemContext filter = .error err →
        ListImages s getUserFromImage req = .error err) ∧
      (∀ results, s.StorageListImages s.SystemContext filter = .ok results →
        ∃ resp, ListImages s getUserFromImage req = .ok resp ∧
          resp.Images.length = results.length ∧
          ∀ i : Nat, resp.Images[i]?
            = (results[i]?).map (fun result => ConvertImage getUserFromImage (some result))) := by
  refine ⟨match req.Filter with
    | some reqFilter =>
      match reqFilter.Image with
      | some filterImage => filterImage.Image
      | none => ""
    | none => "", ?_, ?_, ?_, ?_⟩
  · intro reqFilter filterImage h1 h2
    simp [h1, h2]
  · rintro (h | ⟨reqFilter, h1, h2⟩)
    · simp [h]
    · simp [h1, h2]
  · intro err herr
    simp only [ListImages]
    rw [herr]
  · intro results hres
    refine ⟨⟨results.map (fun result => ConvertImage getUserFromImage (some result))⟩, ?_,
      by simp, ?_⟩
    · simp only [ListImages]
      rw [hres]
      simp [foldl_append_images]
    · intro i
      simp

/-- C20 at a request the store answers with one image, and at one it fails
on. -/
theorem ListImages_response_witness :
    (∃ resp, ListImages sampleServer sampleUser (requestFor "busybox") = .ok resp ∧
      resp.Images.length = 1 ∧
      resp.Images[0]? = some (ConvertImage sampleUser (some sampleImage))) ∧
    ListImages sampleServer sampleUser (requestFor "missing") = .error ⟨"image not known"⟩ := by
  constructor
  · obtain ⟨filter, hf, _, _, hok⟩ :=
      ListImages_response sampleServer sampleUser (requestFor "busybox")
    have hfilter : filter = "busybox" := hf _ _ rfl rfl
    subst hfilter
    obtain ⟨resp, hresp, hlen, hi⟩ := hok [sampleImage] rfl
    exact ⟨resp, hresp, hlen, by simpa using hi 0⟩
  · obtain ⟨filter, hf, _, herr, _⟩ :=
      ListImages_response sampleServer sampleUser (requestFor "missing")
    have hfilter : filter = "missing" := hf _ _ rfl rfl
    subst hfilter
    exact herr _ rfl

end Crio
